import Mathlib

/-!
Verification of the zoning/routing core of the My-IZG repository.

Python floats are modelled as rationals (all arithmetic the verified claims
touch is exact in binary floating point at the inputs used), Python ints as
integers, Python strings as strings, Python lists and insertion-ordered
dicts as Lean lists (of pairs).  External effects (the OSRM HTTP oracle,
the OR-Tools solver, trigonometric library functions) are passed in as
explicit function parameters, so that every definition stays executable.
-/

namespace IZG

/-- Python float modulo: `x % y` for `y > 0` returns `x - y * floor (x / y)`,
the representative in `[0, y)`.  Mirrors `(bearing - rotation_offset) % 360`. -/
def pymod (x y : ℚ) : ℚ := x - y * (⌊x / y⌋ : ℚ)

/-- Python `int(q)` on a float: truncation toward zero. -/
def pyint (q : ℚ) : ℤ := if 0 ≤ q then ⌊q⌋ else ⌈q⌉

/-- Left-pad a string with zeros to the given width (used by `%0Nd`). -/
def padZeros (width : ℕ) (s : String) : String :=
  if width ≤ s.length then s
  else String.mk (List.replicate (width - s.length) '0') ++ s

/-- Python `f"{n:0Nd}"`: sign-aware zero padding to total width `width`. -/
def pyFormatInt (width : ℕ) (n : ℤ) : String :=
  if n < 0 then "-" ++ padZeros (width - 1) (toString n.natAbs)
  else padZeros width (toString n.natAbs)

/-- The fields of `models.domain.Customer` that the verified services read.
The remaining fields (area, region, city, agent, status, raw) are carried
opaquely by the Python code and never influence the claims below. -/
structure Customer where
  customer_id : String
  latitude : ℚ
  longitude : ℚ
deriving Repr, DecidableEq

/-- The fields of `models.domain.Depot` read by the zoning strategies. -/
structure Depot where
  code : String
  latitude : ℚ
  longitude : ℚ
deriving Repr, DecidableEq

/-- `base.ZoningResult`: an insertion-ordered assignment map plus free-form
metadata (the metadata entries relevant to the claims are carried
explicitly; the strategy name is kept as a plain string). -/
structure ZoningResult where
  assignments : List (String × String)
  strategy : String
deriving Repr, DecidableEq

/-! ## Polar sector zoning (`services/zoning/polar.py`) -/

/-- `depot.code[:3].upper()` -/
def depotCode3 (code : String) : String := (code.take 3).toUpper

/-- `PolarSectorZoning.generate`.  The compass-bearing function
`bearing_degrees` (pure trigonometry in `services/geospatial.py`) is passed
in as `bdeg`; the Python code guarantees its result lies in `[0, 360)`.
`int(bearing // sector_size)` is `int` applied to an integral float, hence
exactly the floor of the quotient. -/
def polarGenerate (bdeg : ℚ → ℚ → ℚ → ℚ → ℚ) (depot : Depot)
    (customers : List Customer) (target_zones : ℤ) (rotation_offset : ℚ) :
    Except String ZoningResult :=
  if target_zones < 1 then .error "target_zones must be >= 1"
  else
    let sector_size : ℚ := 360 / (target_zones : ℚ)
    let assignments := customers.map (fun c =>
      let bearing : ℚ :=
        pymod (bdeg depot.latitude depot.longitude c.latitude c.longitude - rotation_offset) 360
      let sector_index : ℤ := ⌊bearing / sector_size⌋
      (c.customer_id, depotCode3 depot.code ++ pyFormatInt 3 (sector_index + 1)))
    .ok { assignments := assignments, strategy := "polar" }

/-- The sector index named by the specification text: floor of
`((bearing - rotation_offset) mod 360) / (360 / target_zones)`. -/
def specSectorIndex (bdeg : ℚ → ℚ → ℚ → ℚ → ℚ) (depot : Depot) (c : Customer)
    (target_zones : ℤ) (rotation_offset : ℚ) : ℤ :=
  ⌊pymod (bdeg depot.latitude depot.longitude c.latitude c.longitude - rotation_offset) 360 /
    (360 / (target_zones : ℚ))⌋

/-- The zone id the claim asserts: depot-code prefix followed by the
3-digit sector index itself. -/
def claimedPolarZoneId (bdeg : ℚ → ℚ → ℚ → ℚ → ℚ) (depot : Depot) (c : Customer)
    (target_zones : ℤ) (rotation_offset : ℚ) : String :=
  depotCode3 depot.code ++ pyFormatInt 3 (specSectorIndex bdeg depot c target_zones rotation_offset)

/-! ## Isochrone zoning (`services/zoning/isochrone.py`) -/

/-- `settings.default_isochrones` -/
def defaultIsochrones : List ℤ := [15, 30, 45, 60]

/-- `IsochroneZoning._match_threshold`: the first threshold the duration
does not exceed wins; beyond all thresholds, either an extra numbered
bucket (when a truthy `target_zones` exceeds the threshold count) or the
out-of-range bucket. -/
def matchThreshold (duration : ℚ) (thresholds : List ℤ) (target_zones : Option ℤ) : String :=
  match thresholds.find? (fun (t : ℤ) => decide (duration ≤ (t : ℚ))) with
  | some t => "ISO" ++ pyFormatInt 3 t
  | none =>
    match target_zones with
    | some tz =>
      if tz ≠ 0 ∧ (thresholds.length : ℤ) < tz then
        "ISOX" ++ pyFormatInt 2 (min ((thresholds.length : ℤ) + 1) tz)
      else "ISO_OUT_OF_RANGE"
    | none => "ISO_OUT_OF_RANGE"

/-- `IsochroneZoning._fallback_haversine_minutes` for one customer: the
haversine distance (the pure trigonometric `haversine_km` is passed in as
`hav`) converted to minutes at the fixed average speed of 40 km/h. -/
def fallbackHaversineMinutes (hav : ℚ → ℚ → ℚ → ℚ → ℚ) (depot : Depot)
    (c : Customer) : ℚ :=
  hav depot.latitude depot.longitude c.latitude c.longitude / 40 * 60

/-- Stable ascending insertion of one element (helper for `pySorted`). -/
def insertAsc (x : ℤ) : List ℤ → List ℤ
  | [] => [x]
  | y :: ys => if x < y then x :: y :: ys else y :: insertAsc x ys

/-- Python `sorted` on a list of ints: stable ascending order. -/
def pySorted (l : List ℤ) : List ℤ := l.foldr insertAsc []

/-- `sorted(thresholds or settings.default_isochrones)`: both `None` and
the empty list fall back to the configured defaults. -/
def sortedIsoThresholds (thresholds0 : Option (List ℤ)) : List ℤ :=
  pySorted
    (match thresholds0 with
      | none => defaultIsochrones
      | some [] => defaultIsochrones
      | some l => l)

/-- `IsochroneZoning.generate` with the oracle unconfigured
(`settings.osrm_base_url` unset), so durations come from the haversine
fallback. -/
def isochroneGenerateOffline (hav : ℚ → ℚ → ℚ → ℚ → ℚ) (depot : Depot)
    (customers : List Customer) (target_zones : Option ℤ)
    (thresholds0 : Option (List ℤ)) : ZoningResult :=
  let thresholds := sortedIsoThresholds thresholds0
  let durations := customers.map (fun c => fallbackHaversineMinutes hav depot c)
  let assignments := (customers.zip durations).map
    (fun p => (p.1.customer_id, matchThreshold p.2 thresholds target_zones))
  { assignments := assignments, strategy := "isochrone" }

/-! ## Balancing pass (`services/balancing/service.py`)

Python dicts are insertion ordered; they are modelled as association
lists, with `max`/`min` over `dict.items()` keeping the first extremal
entry in iteration order, exactly as CPython does. -/

/-- `balancing.service.BalanceTransfer` -/
structure BalanceTransfer where
  customer_id : String
  from_zone : String
  to_zone : String
  distance_km : ℚ
deriving Repr, DecidableEq

/-- `balancing.service.BalanceResult` -/
structure BalanceResult where
  assignments : List (String × String)
  transfers : List BalanceTransfer
  counts_before : List (String × ℤ)
  counts_after : List (String × ℤ)
  tolerance : ℚ
deriving Repr, DecidableEq

/-- `by_id = {c.customer_id: c for c in customers}; by_id.get(cid)`:
later duplicates overwrite earlier ones, so the last match wins. -/
def byIdGet (customers : List Customer) (cid : String) : Option Customer :=
  customers.reverse.find? (fun c => c.customer_id == cid)

/-- `zone_map.setdefault(zone, []).append(customer)`: append to an existing
entry, or add a new entry at the end (dict insertion order). -/
def zoneMapInsert : List (String × List Customer) → String → Customer →
    List (String × List Customer)
  | [], z, c => [(z, [c])]
  | (z0, cs) :: rest, z, c =>
    if z0 = z then (z0, cs ++ [c]) :: rest else (z0, cs) :: zoneMapInsert rest z c

/-- `_build_zone_map`: group customers by assigned zone, skipping
assignment keys with no matching customer. -/
def buildZoneMap (assignments : List (String × String)) (customers : List Customer) :
    List (String × List Customer) :=
  assignments.foldl
    (fun m p =>
      match byIdGet customers p.1 with
      | none => m
      | some c => zoneMapInsert m p.2 c)
    []

/-- `zone_map.get(zone, [])` -/
def zoneMapGet (m : List (String × List Customer)) (z : String) : List Customer :=
  ((m.find? (fun p => p.1 == z)).map (fun p => p.2)).getD []

/-- Replace the customer list of an existing zone entry. -/
def zoneMapUpdate (m : List (String × List Customer)) (z : String)
    (f : List Customer → List Customer) : List (String × List Customer) :=
  m.map (fun p => if p.1 = z then (p.1, f p.2) else p)

/-- `list.remove(x)`: drop the first element equal to `x`. -/
def removeFirst : List Customer → Customer → List Customer
  | [], _ => []
  | x :: xs, c => if x = c then xs else x :: removeFirst xs c

/-- `counts[z] += d` on an existing key. -/
def countsAdd (counts : List (String × ℤ)) (z : String) (d : ℤ) : List (String × ℤ) :=
  counts.map (fun p => if p.1 = z then (p.1, p.2 + d) else p)

/-- Python dict assignment `assignments[cid] = zone`: update in place when
the key exists, append otherwise. -/
def assocSet (l : List (String × String)) (k v : String) : List (String × String) :=
  if l.any (fun p => p.1 == k) then l.map (fun p => if p.1 = k then (k, v) else p)
  else l ++ [(k, v)]

/-- `_zone_centroid`: `(0, 0)` for an empty list, else the coordinate mean. -/
def zoneCentroid (customers : List Customer) : ℚ × ℚ :=
  match customers with
  | [] => (0, 0)
  | _ =>
    ((customers.map (fun c => c.latitude)).sum / (customers.length : ℚ),
     (customers.map (fun c => c.longitude)).sum / (customers.length : ℚ))

/-- `_compute_bounds`: returns `(avg, lower, upper)`. -/
def computeBounds (counts : List (String × ℤ)) (tolerance : ℚ) : ℚ × ℚ × ℚ :=
  let total : ℤ := (counts.map (fun p => p.2)).sum
  let zones : ℕ := max 1 counts.length
  let avg : ℚ := (total : ℚ) / (zones : ℚ)
  (avg, avg * (1 - tolerance), avg * (1 + tolerance))

/-- CPython `max(items, key=value)`: the first entry with the maximal value. -/
def firstMaxByCount (l : List (String × ℤ)) : Option (String × ℤ) :=
  l.foldl
    (fun acc p =>
      match acc with
      | none => some p
      | some q => if q.2 < p.2 then some p else some q)
    none

/-- CPython `min(items, key=value)`: the first entry with the minimal value. -/
def firstMinByCount (l : List (String × ℤ)) : Option (String × ℤ) :=
  l.foldl
    (fun acc p =>
      match acc with
      | none => some p
      | some q => if p.2 < q.2 then some p else some q)
    none

/-- CPython `min(candidates, key=f)`: the first customer with minimal key. -/
def firstMinCustomerBy (l : List Customer) (f : Customer → ℚ) : Option Customer :=
  l.foldl
    (fun acc c =>
      match acc with
      | none => some c
      | some b => if f c < f b then some c else some b)
    none

/-- Mutable loop state of `balance_assignments`. -/
structure BalanceState where
  zone_map : List (String × List Customer)
  counts : List (String × ℤ)
  assignments : List (String × String)
  transfers : List BalanceTransfer

/-- One bounded pass of the `for _ in range(max_iterations)` loop of
`balance_assignments`.  The source computes `avg, lower, upper` before the
loop and recomputes them from the updated counts at the end of every
iteration; recomputing them from the current counts at the head of each
iteration is the same sequence of values. -/
def balanceLoop (hav : ℚ → ℚ → ℚ → ℚ → ℚ) (tolerance : ℚ) :
    ℕ → BalanceState → BalanceState
  | 0, st => st
  | fuel + 1, st =>
    match firstMaxByCount st.counts, firstMinByCount st.counts with
    | some over, some under =>
      let bounds := computeBounds st.counts tolerance
      if (over.2 : ℚ) ≤ bounds.2.2 ∨ bounds.2.1 ≤ (under.2 : ℚ) then st
      else
        match zoneMapGet st.zone_map over.1 with
        | [] => st
        | cand0 :: candrest =>
          let candidates := cand0 :: candrest
          let t0 := zoneCentroid (zoneMapGet st.zone_map under.1)
          let target_centroid :=
            if t0 = (0, 0) ∧ zoneMapGet st.zone_map under.1 ≠ [] then
              zoneCentroid (zoneMapGet st.zone_map under.1)
            else t0
          let customer_distance := fun (c : Customer) =>
            hav c.latitude c.longitude target_centroid.1 target_centroid.2
          match firstMinCustomerBy candidates customer_distance with
          | none => st
          | some mover =>
            let st1 : BalanceState :=
              { zone_map :=
                  zoneMapInsert (zoneMapUpdate st.zone_map over.1
                    (fun cs => removeFirst cs mover)) under.1 mover,
                counts := countsAdd (countsAdd st.counts over.1 (-1)) under.1 1,
                assignments := assocSet st.assignments mover.customer_id under.1,
                transfers := st.transfers ++
                  [{ customer_id := mover.customer_id, from_zone := over.1,
                     to_zone := under.1, distance_km := customer_distance mover }] }
            balanceLoop hav tolerance fuel st1
    | _, _ => st

/-- `balance_assignments`.  The haversine distance function is passed in as
`hav`.  `max_iterations or len(assignments)` treats both `None` and `0` as
falsy. -/
def balanceAssignments (hav : ℚ → ℚ → ℚ → ℚ → ℚ)
    (assignments : List (String × String)) (customers : List Customer)
    (tolerance : ℚ) (max_iterations : Option ℕ) : Except String BalanceResult :=
  if tolerance < 0 then .error "tolerance must be >= 0"
  else
    let zone_map := buildZoneMap assignments customers
    let counts_before := zone_map.map (fun p => (p.1, (p.2.length : ℤ)))
    match counts_before with
    | [] =>
      .ok { assignments := assignments, transfers := [], counts_before := [],
            counts_after := [], tolerance := tolerance }
    | _ =>
      let fuel := match max_iterations with
        | none => assignments.length
        | some 0 => assignments.length
        | some k => k
      let final := balanceLoop hav tolerance fuel
        { zone_map := zone_map, counts := counts_before,
          assignments := assignments, transfers := [] }
      .ok { assignments := final.assignments, transfers := final.transfers,
            counts_before := counts_before, counts_after := final.counts,
            tolerance := tolerance }

/-! ## Python exception kinds raised by the routing services -/

/-- The exception classes distinguished by the claims. -/
inductive PyError where
  | valueError : String → PyError
  | typeError : String → PyError
  | connectionError : String → PyError
deriving Repr, DecidableEq

/-! ## OSRM client (`services/routing/osrm_client.py`) -/

/-- The `{durations, distances}` JSON payload of an OSRM table response:
`dict.get` yields `None` for a missing key, individual cells are floats or
`null`. -/
structure OsrmTable where
  durations : Option (List (List (Option ℚ)))
  distances : Option (List (List (Option ℚ)))
deriving Repr, DecidableEq

/-- Result of one successful chunk request (`_table_single_request`). -/
structure ChunkResult where
  durations : List (List (Option ℚ))
  distances : List (List (Option ℚ))
deriving Repr, DecidableEq

/-- Write one matrix cell, `matrix[i][j] = v`. -/
def setCell (m : List (List α)) (i j : ℕ) (v : α) : List (List α) :=
  m.set i ((m.getD i []).set j v)

/-- Read one matrix cell with a default (out of range reads the default;
the modelled code only reads in range). -/
def cellD (m : List (List α)) (i j : ℕ) (d : α) : α :=
  (m.getD i []).getD j d

/-- Read one matrix cell of an option matrix. -/
def getCell (m : List (List (Option ℚ))) (i j : ℕ) : Option ℚ :=
  cellD m i j none

/-- Read one matrix cell of an integer matrix. -/
def matGet (m : List (List ℤ)) (i j : ℕ) : ℤ :=
  cellD m i j 0

/-- The number of coordinate chunks, `ceil(n / chunk_size)`. -/
def numChunks (n cs : ℕ) : ℕ := (n + cs - 1) / cs

/-- The chunk ranges produced by `for i in range(0, n, chunk_size)`:
`(i, i + len(coordinates[i : i + chunk_size]))`. -/
def chunkRanges (n cs : ℕ) : List (ℕ × ℕ) :=
  (List.range (numChunks n cs)).map (fun k => (k * cs, min ((k + 1) * cs) n))

/-- Stitch one successful chunk response into the full matrices: iterate
the local source/destination offsets of the chunk rectangle and copy every
cell the response covers (the guard mirrors the bounds check on the
response dimensions; the Python code indexes `result_distances` with the
same local indices, which presupposes equal dimensions of the two response
matrices, as OSRM guarantees). -/
def stitchChunkPair (mats : List (List (Option ℚ)) × List (List (Option ℚ)))
    (s0 s1 d0 d1 : ℕ) (res : ChunkResult) :
    List (List (Option ℚ)) × List (List (Option ℚ)) :=
  (List.range (s1 - s0)).foldl
    (fun md ls =>
      (List.range (d1 - d0)).foldl
        (fun md2 ld =>
          if ls < res.durations.length ∧ ld < (res.durations.getD ls []).length then
            (setCell md2.1 (s0 + ls) (d0 + ld) ((res.durations.getD ls []).getD ld none),
             setCell md2.2 (s0 + ls) (d0 + ld) ((res.distances.getD ls []).getD ld none))
          else md2)
        md)
    mats

/-- The row-major list of `(source_chunk, destination_chunk)` index pairs
requested by the chunked `table()` path. -/
def chunkPairs (k : ℕ) : List (ℕ × ℕ) :=
  (List.range k).flatMap (fun a => (List.range k).map (fun b => (a, b)))

/-- `failed_chunks` after all chunk requests completed. -/
def chunkFailureCount (oracle : ℕ → ℕ → Option ChunkResult) (k : ℕ) : ℕ :=
  (chunkPairs k).countP (fun p => (oracle p.1 p.2).isNone)

/-- The stitching fold of the chunked `table()` path: starting from
pre-sized all-`None` matrices, copy every successful chunk response into
its rectangle and count the failures.  Returns `((durations, distances),
failed_chunks)`. -/
def stitchedMats (oracle : ℕ → ℕ → Option ChunkResult) (n cs : ℕ) :
    (List (List (Option ℚ)) × List (List (Option ℚ))) × ℕ :=
  let ranges := chunkRanges n cs
  (chunkPairs ranges.length).foldl
    (fun acc p =>
      match oracle p.1 p.2 with
      | none => (acc.1, acc.2 + 1)
      | some res =>
        let ra := ranges.getD p.1 (0, 0)
        let rb := ranges.getD p.2 (0, 0)
        (stitchChunkPair acc.1 ra.1 ra.2 rb.1 rb.2 res, acc.2))
    ((List.replicate n (List.replicate n (none : Option ℚ)),
      List.replicate n (List.replicate n (none : Option ℚ))), 0)

/-- The chunked branch of `OSRMClient.table`: tile the full matrix into
chunk-pair requests (the outcome of the request for source chunk `a` and
destination chunk `b` is `oracle a b`, `none` meaning the request failed),
stitch successful responses into pre-sized `None` matrices, count
failures, and fail the whole call with a `ConnectionError` when more than
half of the chunk requests failed.  The parallel thread pool writes to
disjoint index ranges, so the sequential row-major order used here yields
the same matrices. -/
def tableChunked (oracle : ℕ → ℕ → Option ChunkResult) (n cs : ℕ) :
    Except PyError (List (List (Option ℚ)) × List (List (Option ℚ))) :=
  let k := (chunkRanges n cs).length
  let result := stitchedMats oracle n cs
  let total := k * k
  let failed := result.2
  let failure_rate : ℚ := if 0 < total then (failed : ℚ) / (total : ℚ) else 1
  if 1 / 2 < failure_rate then
    .error (.connectionError "Critical failure: more than half of the chunk requests failed.")
  else
    .ok result.1

/-- `OSRMClient.table`: fewer than two coordinates is a `ValueError`; a
coordinate list within the per-request maximum goes through the single
request path (whose outcome is `single`); larger lists are chunked. -/
def osrmClientTable (single : Except PyError ChunkResult)
    (oracle : ℕ → ℕ → Option ChunkResult) (n cs : ℕ) :
    Except PyError (List (List (Option ℚ)) × List (List (Option ℚ))) :=
  if n < 2 then .error (.valueError "At least two coordinates are required for OSRM table.")
  else if n ≤ cs then
    match single with
    | .error e => .error e
    | .ok res => .ok (res.durations, res.distances)
  else tableChunked oracle n cs

/-! ## VRP solver (`services/routing/solver.py`) -/

/-- `solver.LARGE_PENALTY` -/
def LARGE_PENALTY : ℤ := 999999999

/-- `solver.SolverConstraints` -/
structure SolverConstraints where
  max_customers_per_route : ℕ
  min_customers_per_route : ℕ
  max_route_duration_minutes : ℤ
  max_distance_per_route_km : ℚ
deriving Repr, DecidableEq

/-- The configured defaults of `config.Settings`. -/
def defaultConstraints : SolverConstraints :=
  { max_customers_per_route := 25, min_customers_per_route := 10,
    max_route_duration_minutes := 600, max_distance_per_route_km := 50 }

/-- `settings.working_days` -/
def defaultWorkingDays : List String := ["SUN", "MON", "TUE", "WED", "THU", "SAT"]

/-- One row of `_prepare_matrices`: `int(value)` for present cells,
`LARGE_PENALTY` for `None` cells. -/
def prepareRow (row : List (Option ℚ)) : List ℤ :=
  row.map (fun v =>
    match v with
    | some x => pyint x
    | none => LARGE_PENALTY)

/-- One matrix of `_prepare_matrices`: convert every row, then (when the
matrix is non-empty) unconditionally reset the depot-to-depot cell
`[0][0]` to `0`. -/
def prepareMatrix (m : List (List (Option ℚ))) : List (List ℤ) :=
  match m.map prepareRow with
  | [] => m.map prepareRow
  | _ => setCell (m.map prepareRow) 0 0 0

/-- `_prepare_matrices`: missing `durations`/`distances` is a `ValueError`;
`None` cells become `LARGE_PENALTY`; finally the depot-to-depot cell
`[0][0]` of each matrix is unconditionally reset to `0`. -/
def prepareMatrices (t : OsrmTable) :
    Except String (List (List ℤ) × List (List ℤ)) :=
  match t.durations, t.distances with
  | some durs, some dists => .ok (prepareMatrix durs, prepareMatrix dists)
  | _, _ => .error "OSRM table response missing durations or distances."

/-- `routing.models.RouteStop` -/
structure RouteStop where
  customer_id : String
  sequence : ℕ
  arrival_min : ℚ
  distance_from_prev_km : ℚ
deriving Repr, DecidableEq

/-- `routing.models.RoutePlan` (`constraint_violations` is a small string
keyed dict, modelled as an ordered pair list). -/
structure RoutePlan where
  route_id : String
  day : String
  total_distance_km : ℚ
  total_duration_min : ℚ
  customer_count : ℕ
  stops : List RouteStop
  constraint_violations : List (String × ℚ)
deriving Repr, DecidableEq

/-- The metadata dict attached to a `RoutingResult`, restricted to the
keys the solver and sequence solver actually write; a key that a given
code path does not write is `none`. -/
structure RoutingMetadata where
  status : String
  reason : Option String
  customers : Option ℕ
  vehicles : Option ℕ
  constraints_relaxed : Option Bool
  original_max_route_duration_minutes : Option ℤ
  original_max_distance_per_route_km : Option ℚ
  original_max_customers_per_route : Option ℕ
  relaxed_max_route_duration_minutes : Option ℚ
  relaxed_max_distance_per_route_km : Option ℚ
  max_depot_distance_km : Option ℚ
  max_depot_duration_min : Option ℚ
  optimization_mode : Option String
deriving Repr, DecidableEq

/-- `routing.models.RoutingResult` -/
structure RoutingResult where
  zone_id : String
  plans : List RoutePlan
  metadata : RoutingMetadata
deriving Repr, DecidableEq

/-- The data handed to one OR-Tools `RoutingModel` build in `solve_vrp`:
matrices, vehicle count, and the three dimension bounds.  The strict and
the relaxed attempt differ only in `duration_bound_seconds` and
`distance_bound_meters`. -/
structure VrpModel where
  distance_matrix : List (List ℤ)
  duration_matrix : List (List ℤ)
  vehicles : ℕ
  capacity : ℕ
  duration_bound_seconds : ℤ
  distance_bound_meters : ℤ
deriving Repr, DecidableEq

/-- An OR-Tools solution, abstracted: per vehicle the sequence of nodes
visited between `Start` and `End` (both depot copies), the Time-dimension
cumul value at each visited node, and the Time/Distance cumul values at
each vehicle end. -/
structure VrpAssignment where
  routes : List (List ℕ)
  nodeTimeCumulSec : ℕ → ℤ
  endTimeCumulSec : ℕ → ℤ
  endDistCumulM : ℕ → ℤ

/-- `_build_manager`: one vehicle per `ceil((node_count - 1) /
max_customers_per_route)`, at least one. -/
def vrpVehicles (node_count cap : ℕ) : ℕ :=
  max 1 (⌈((node_count : ℚ) - 1) / (cap : ℚ)⌉.toNat)

/-- Validation prefix of `solve_vrp`: prepare the matrices and run the
four `ValueError` checks (empty matrices, size mismatch, fewer than two
locations, no reachable customer from the depot). -/
def vrpValidate (t : OsrmTable) :
    Except PyError (List (List ℤ) × List (List ℤ)) :=
  match prepareMatrices t with
  | .error e => .error (.valueError e)
  | .ok (duration_matrix, distance_matrix) =>
    if duration_matrix = [] ∨ distance_matrix = [] then
      .error (.valueError "Empty duration or distance matrix from OSRM.")
    else if duration_matrix.length ≠ distance_matrix.length then
      .error (.valueError "Matrix size mismatch")
    else if duration_matrix.length < 2 then
      .error (.valueError "Insufficient locations for routing")
    else
      let row0dist := distance_matrix.getD 0 []
      let row0dur := duration_matrix.getD 0 []
      let valid_routes_from_depot := ((List.range row0dist.length).drop 1).countP
        (fun i => decide (row0dist.getD i 0 < LARGE_PENALTY ∧ row0dur.getD i 0 < LARGE_PENALTY))
      if valid_routes_from_depot = 0 then
        .error (.valueError "No reachable customers from depot. All routes returned unreachable.")
      else .ok (duration_matrix, distance_matrix)

/-- The model of the first (strict) solver attempt. -/
def strictVrpModel (constraints : SolverConstraints)
    (duration_matrix distance_matrix : List (List ℤ)) : VrpModel :=
  { distance_matrix := distance_matrix, duration_matrix := duration_matrix,
    vehicles := vrpVehicles distance_matrix.length constraints.max_customers_per_route,
    capacity := constraints.max_customers_per_route,
    duration_bound_seconds := pyint ((constraints.max_route_duration_minutes : ℚ) * 60),
    distance_bound_meters := pyint (constraints.max_distance_per_route_km * 1000) }

/-- `max(generator, default=0)` over the depot row entries below the
penalty, each divided by `divisor`. -/
def maxDepotLeg (row0 : List ℤ) (divisor : ℚ) : ℚ :=
  match ((row0.drop 1).filter (fun v => decide (v < LARGE_PENALTY))).map
      (fun v => (v : ℚ) / divisor) with
  | [] => 0
  | x :: xs => xs.foldl max x

/-- The relaxed `(duration_minutes, distance_km)` bounds computed after an
infeasible first attempt: `max(1.5 x original, 2.5 x worst depot leg,
absolute floor)` with floors 900 minutes and 100 km. -/
def relaxedBounds (constraints : SolverConstraints)
    (duration_matrix distance_matrix : List (List ℤ)) : ℚ × ℚ :=
  let max_depot_distance_km := maxDepotLeg (distance_matrix.getD 0 []) 1000
  let max_depot_duration_min := maxDepotLeg (duration_matrix.getD 0 []) 60
  (max (max ((constraints.max_route_duration_minutes : ℚ) * (3 / 2))
        (max_depot_duration_min * (5 / 2))) 900,
   max (max (constraints.max_distance_per_route_km * (3 / 2))
        (max_depot_distance_km * (5 / 2))) 100)

/-- The model of the relaxed retry: same matrices, vehicles and capacity,
only the duration and distance bounds change. -/
def relaxedVrpModel (constraints : SolverConstraints)
    (duration_matrix distance_matrix : List (List ℤ)) : VrpModel :=
  let rb := relaxedBounds constraints duration_matrix distance_matrix
  { strictVrpModel constraints duration_matrix distance_matrix with
    duration_bound_seconds := pyint (rb.1 * 60),
    distance_bound_meters := pyint (rb.2 * 1000) }

/-- The route-extraction `while` loop of `solve_vrp` for one vehicle: walk
the visited nodes; the leading depot node emits no stop; a customer node
emits a stop whose recorded distance is the matrix entry from that node to
the node that FOLLOWS it on the route (the depot, node `0`, for the last
stop), read off `distance_matrix[node_index][next_node]`. -/
def extractStops (distance_matrix : List (List ℤ)) (customers : List Customer)
    (timeCumul : ℕ → ℤ) : List ℕ → ℕ → List RouteStop
  | [], _ => []
  | node :: rest, seq =>
    let next_node := match rest with | [] => 0 | m :: _ => m
    let step_distance : ℚ := (matGet distance_matrix node next_node : ℚ) / 1000
    if node ≠ 0 ∧ node - 1 < customers.length then
      { customer_id := (customers.getD (node - 1) { customer_id := "", latitude := 0, longitude := 0 }).customer_id,
        sequence := seq,
        arrival_min := (timeCumul node : ℚ) / 60,
        distance_from_prev_km := step_distance } ::
        extractStops distance_matrix customers timeCumul rest (seq + 1)
    else extractStops distance_matrix customers timeCumul rest seq

/-- Build the `RoutePlan` of one vehicle (`None` when the vehicle serves
no customer); `plans_so_far` is `len(plans)` at day-assignment time. -/
def buildVehiclePlan (zone_id : String) (working_days : List String)
    (constraints : SolverConstraints) (distance_matrix : List (List ℤ))
    (customers : List Customer) (a : VrpAssignment) (vehicle_id plans_so_far : ℕ) :
    Option RoutePlan :=
  let route := a.routes.getD vehicle_id []
  match extractStops distance_matrix customers a.nodeTimeCumulSec route 1 with
  | [] => none
  | s :: srest =>
    let stops := s :: srest
    let day := working_days.getD (plans_so_far % working_days.length) ""
    let route_distance : ℚ := (a.endDistCumulM vehicle_id : ℚ) / 1000
    let route_duration : ℚ := (a.endTimeCumulSec vehicle_id : ℚ) / 60
    let violations : List (String × ℚ) :=
      (if constraints.max_distance_per_route_km < route_distance then
        [("distance_km", route_distance - constraints.max_distance_per_route_km)] else []) ++
      (if (constraints.max_route_duration_minutes : ℚ) < route_duration then
        [("duration_min", route_duration - (constraints.max_route_duration_minutes : ℚ))] else []) ++
      (if stops.length < constraints.min_customers_per_route then
        [("min_customers", ((constraints.min_customers_per_route : ℚ) - (stops.length : ℚ)))] else [])
    some { route_id := zone_id ++ "_R" ++ pyFormatInt 2 ((vehicle_id : ℤ) + 1),
           day := day,
           total_distance_km := route_distance,
           total_duration_min := route_duration,
           customer_count := stops.length,
           stops := stops,
           constraint_violations := violations }

/-- The plan list over all vehicles. -/
def buildPlans (zone_id : String) (working_days : List String)
    (constraints : SolverConstraints) (distance_matrix : List (List ℤ))
    (customers : List Customer) (a : VrpAssignment) (vehicles : ℕ) :
    List RoutePlan :=
  (List.range vehicles).foldl
    (fun plans v =>
      match buildVehiclePlan zone_id working_days constraints distance_matrix
          customers a v plans.length with
      | none => plans
      | some p => plans ++ [p])
    []

/-- Success metadata of `solve_vrp` (`relaxed = none` when the strict
attempt succeeded, otherwise the relaxed `(duration, distance)` bounds). -/
def vrpSuccessMetadata (constraints : SolverConstraints) (vehicles : ℕ)
    (relaxed : Option (ℚ × ℚ)) : RoutingMetadata :=
  { status := "optimal", reason := none, customers := none,
    vehicles := some vehicles,
    constraints_relaxed := some relaxed.isSome,
    original_max_route_duration_minutes :=
      relaxed.map (fun _ => constraints.max_route_duration_minutes),
    original_max_distance_per_route_km :=
      relaxed.map (fun _ => constraints.max_distance_per_route_km),
    original_max_customers_per_route := none,
    relaxed_max_route_duration_minutes := relaxed.map (fun rb => rb.1),
    relaxed_max_distance_per_route_km := relaxed.map (fun rb => rb.2),
    max_depot_distance_km := none, max_depot_duration_min := none,
    optimization_mode := none }

/-- The zero-plan `RoutingResult` returned when the relaxed retry is still
infeasible (rather than raising). -/
def vrpInfeasibleResult (zone_id : String) (customers : List Customer)
    (constraints : SolverConstraints)
    (duration_matrix distance_matrix : List (List ℤ)) : RoutingResult :=
  let rb := relaxedBounds constraints duration_matrix distance_matrix
  { zone_id := zone_id, plans := [],
    metadata :=
      { status := "infeasible",
        reason := some ("Solver could not find a feasible solution even with relaxed constraints. " ++
          "The problem may require more vehicles or have unreachable customers."),
        customers := some customers.length,
        vehicles := none,
        constraints_relaxed := none,
        original_max_route_duration_minutes := some constraints.max_route_duration_minutes,
        original_max_distance_per_route_km := some constraints.max_distance_per_route_km,
        original_max_customers_per_route := some constraints.max_customers_per_route,
        relaxed_max_route_duration_minutes := some rb.1,
        relaxed_max_distance_per_route_km := some rb.2,
        max_depot_distance_km := some (maxDepotLeg (distance_matrix.getD 0 []) 1000),
        max_depot_duration_min := some (maxDepotLeg (duration_matrix.getD 0 []) 60),
        optimization_mode := none } }

/-- `solve_vrp`, with the OR-Tools search abstracted as `solve` (the
outcome of `routing.SolveWithParameters` on each built model). -/
def solveVrp (solve : VrpModel → Option VrpAssignment) (zone_id : String)
    (customers : List Customer) (osrm_table : OsrmTable)
    (working_days0 : List String) (constraints0 : Option SolverConstraints) :
    Except PyError RoutingResult :=
  let constraints := constraints0.getD defaultConstraints
  let working_days := if working_days0 = [] then defaultWorkingDays else working_days0
  match vrpValidate osrm_table with
  | .error e => .error e
  | .ok (duration_matrix, distance_matrix) =>
    let vehicles := vrpVehicles distance_matrix.length constraints.max_customers_per_route
    match solve (strictVrpModel constraints duration_matrix distance_matrix) with
    | some a =>
      .ok { zone_id := zone_id,
            plans := buildPlans zone_id working_days constraints distance_matrix
              customers a vehicles,
            metadata := vrpSuccessMetadata constraints vehicles none }
    | none =>
      let rb := relaxedBounds constraints duration_matrix distance_matrix
      match solve (relaxedVrpModel constraints duration_matrix distance_matrix) with
      | none =>
        .ok (vrpInfeasibleResult zone_id customers constraints duration_matrix distance_matrix)
      | some a =>
        .ok { zone_id := zone_id,
              plans := buildPlans zone_id working_days constraints distance_matrix
                customers a vehicles,
              metadata := vrpSuccessMetadata constraints vehicles (some rb) }

/-! ## Sequence-only solver (`services/routing/sequence_solver.py`) -/

/-- An OR-Tools single-vehicle TSP solution, abstracted: the visit order
of the route-matrix nodes between `Start` and `End`, plus the
Time-dimension cumul at each node. -/
structure TspAssignment where
  order : List ℕ
  timeCumulSec : ℕ → ℤ

/-- `customer_to_index` dict lookup (keys are unique customer ids). -/
def lookupIndex (customer_to_index : List (String × ℕ)) (cid : String) : Option ℕ :=
  (customer_to_index.find? (fun p => p.1 == cid)).map (fun p => p.2)

/-- `route_index_map`: depot `(None, 0)` first, then `(customer,
full_matrix_index)` for every route customer present in the index map
(missing customers are skipped with a warning). -/
def routeIndexMap (customer_to_index : List (String × ℕ))
    (route_customers : List Customer) : List (Option Customer × ℕ) :=
  ((none : Option Customer), 0) ::
    route_customers.filterMap (fun c =>
      (lookupIndex customer_to_index c.customer_id).map (fun idx => ((some c : Option Customer), idx)))

/-- The per-route sub-matrix
`route_matrix[i][j] = full_matrix[full_idx_i][full_idx_j]`. -/
def subMatrix (m : List (List ℤ)) (rim : List (Option Customer × ℕ)) : List (List ℤ) :=
  rim.map (fun pi => rim.map (fun pj => matGet m pi.2 pj.2))

/-- The solved-branch extraction loop of `solve_sequence_only`: walk the
optimized order accumulating `(stops, total_distance, total_duration,
last_route_idx)`.  The source reads the step leg from
`IndexToNode(previous_index)`, but `previous_index` was saved before
advancing, so it denotes the current node itself and the recorded leg is
the diagonal sub-matrix entry `route_matrix[node][node]`. -/
def seqWalk (rdm rtm : List (List ℤ)) (rim : List (Option Customer × ℕ))
    (tc : ℕ → ℤ) : List ℕ → ℕ → ℚ → ℚ → ℕ → List RouteStop × ℚ × ℚ × ℕ
  | [], _, td, tu, last => ([], td, tu, last)
  | node :: rest, seq, td, tu, last =>
    if node ≠ 0 then
      match (rim.getD node ((none : Option Customer), 0)).1 with
      | some customer =>
        let step_distance : ℚ := (matGet rdm node node : ℚ) / 1000
        let step_duration : ℚ := (matGet rtm node node : ℚ) / 60
        let stop : RouteStop :=
          { customer_id := customer.customer_id, sequence := seq,
            arrival_min := (tc node : ℚ) / 60,
            distance_from_prev_km := step_distance }
        let r := seqWalk rdm rtm rim tc rest (seq + 1) (td + step_distance)
          (tu + step_duration) node
        (stop :: r.1, r.2)
      | none => seqWalk rdm rtm rim tc rest seq td tu last
    else seqWalk rdm rtm rim tc rest seq td tu last

/-- The fallback branch (per-route solve failure): keep the caller order.
`enumerate(route_customers, start=1)` numbers every list position, so a
customer missing from the index map still consumes a sequence number. -/
def seqFallback (dm tm : List (List ℤ)) (customer_to_index : List (String × ℕ)) :
    List Customer → ℕ → ℚ → ℚ → ℕ → List RouteStop × ℚ × ℚ
  | [], _, td, tu, _ => ([], td, tu)
  | c :: rest, seq, td, tu, prev =>
    match lookupIndex customer_to_index c.customer_id with
    | none => seqFallback dm tm customer_to_index rest (seq + 1) td tu prev
    | some idx =>
      let dist_km : ℚ := (matGet dm prev idx : ℚ) / 1000
      let dur_min : ℚ := (matGet tm prev idx : ℚ) / 60
      let stop : RouteStop :=
        { customer_id := c.customer_id, sequence := seq,
          arrival_min := tu + dur_min, distance_from_prev_km := dist_km }
      let r := seqFallback dm tm customer_to_index rest (seq + 1) (td + dist_km)
        (tu + dur_min) idx
      (stop :: r.1, r.2)

/-- Process one pre-assigned route of `solve_sequence_only` (`None` when
the route is skipped by a `continue`). -/
def solveRouteSequence (tsp : List (List ℤ) → List (List ℤ) → Option TspAssignment)
    (duration_matrix distance_matrix : List (List ℤ))
    (customer_to_index : List (String × ℕ)) (route_id day : String)
    (route_customers : List Customer) : Option RoutePlan :=
  match route_customers with
  | [] => none
  | _ =>
    let rim := routeIndexMap customer_to_index route_customers
    if rim.length < 2 then none
    else
      let rdm := subMatrix distance_matrix rim
      let rtm := subMatrix duration_matrix rim
      match tsp rdm rtm with
      | none =>
        let r := seqFallback distance_matrix duration_matrix customer_to_index
          route_customers 1 0 0 0
        some { route_id := route_id, day := day, total_distance_km := r.2.1,
               total_duration_min := r.2.2, customer_count := r.1.length,
               stops := r.1, constraint_violations := [] }
      | some a =>
        let w := seqWalk rdm rtm rim a.timeCumulSec a.order 1 0 0 0
        let stops := w.1
        let last_route_idx := w.2.2.2
        let totals :=
          if stops ≠ [] ∧ 0 < last_route_idx then
            (w.2.1 + (matGet distance_matrix (rim.getD last_route_idx ((none : Option Customer), 0)).2 0 : ℚ) / 1000,
             w.2.2.1 + (matGet duration_matrix (rim.getD last_route_idx ((none : Option Customer), 0)).2 0 : ℚ) / 60)
          else (w.2.1, w.2.2.1)
        some { route_id := route_id, day := day, total_distance_km := totals.1,
               total_duration_min := totals.2, customer_count := stops.length,
               stops := stops, constraint_violations := [] }

/-- The metadata dict written by `solve_sequence_only` (`vehicles` is the
number of produced plans). -/
def seqOnlyMetadata (vehicles : ℕ) : RoutingMetadata :=
  { status := "optimal", reason := none, customers := none,
    vehicles := some vehicles, constraints_relaxed := none,
    original_max_route_duration_minutes := none,
    original_max_distance_per_route_km := none,
    original_max_customers_per_route := none,
    relaxed_max_route_duration_minutes := none,
    relaxed_max_distance_per_route_km := none,
    max_depot_distance_km := none, max_depot_duration_min := none,
    optimization_mode := some "sequence_only" }

/-- `solve_sequence_only`, with the per-route OR-Tools TSP search
abstracted as `tsp` (applied to the route distance and duration
sub-matrices).  `route_assignments` is the insertion-ordered dict
`route_id -> (day, customers)`. -/
def solveSequenceOnly (tsp : List (List ℤ) → List (List ℤ) → Option TspAssignment)
    (zone_id : String) (route_assignments : List (String × String × List Customer))
    (customer_to_index : List (String × ℕ)) (osrm_table : OsrmTable) :
    Except PyError RoutingResult :=
  match prepareMatrices osrm_table with
  | .error e => .error (.valueError e)
  | .ok (duration_matrix, distance_matrix) =>
    if duration_matrix = [] ∨ distance_matrix = [] then
      .error (.valueError "Empty duration or distance matrix from OSRM.")
    else if duration_matrix.length ≠ distance_matrix.length then
      .error (.valueError "Matrix size mismatch")
    else
      let plans := route_assignments.foldl
        (fun acc e =>
          match solveRouteSequence tsp duration_matrix distance_matrix
              customer_to_index e.1 e.2.1 e.2.2 with
          | none => acc
          | some p => acc ++ [p])
        []
      .ok { zone_id := zone_id, plans := plans,
            metadata := seqOnlyMetadata plans.length }

/-- Soundness of the abstract single-vehicle TSP search: a returned
solution visits exactly the customer nodes `1 .. n_route - 1`, each once,
in some order (the model has one vehicle and no disjunctions, so every
node must be visited). -/
def TspPermRespecting (tsp : List (List ℤ) → List (List ℤ) → Option TspAssignment) : Prop :=
  ∀ rdm rtm a, tsp rdm rtm = some a →
    a.order.Perm (List.range' 1 (rdm.length - 1))

/-- Placeholder customer for out-of-range `getD` reads (never produced by
the modelled code paths that the theorems quantify over). -/
def noCustomer : Customer := { customer_id := "", latitude := 0, longitude := 0 }

/-- Placeholder plan for out-of-range `getD` reads. -/
def dummyPlan : RoutePlan :=
  { route_id := "", day := "", total_distance_km := 0, total_duration_min := 0,
    customer_count := 0, stops := [], constraint_violations := [] }

/-- The plan `solve_sequence_only` produces for one route entry (total
under the preconditions of the membership theorem). -/
def seqPlanOf (tsp : List (List ℤ) → List (List ℤ) → Option TspAssignment)
    (duration_matrix distance_matrix : List (List ℤ))
    (customer_to_index : List (String × ℕ))
    (e : String × String × List Customer) : RoutePlan :=
  (solveRouteSequence tsp duration_matrix distance_matrix customer_to_index
    e.1 e.2.1 e.2.2).getD dummyPlan


/-! ## Routing orchestrator (`services/routing/service.py`) -/

/-- The keyword-only parameter list of `solver.solve_vrp`
(`def solve_vrp(*, zone_id, customers, osrm_table, working_days,
constraints)`). -/
def solveVrpKeywordOnlyParams : List String :=
  ["zone_id", "customers", "osrm_table", "working_days", "constraints"]

/-- The keyword arguments passed at the `solve_vrp(...)` call site inside
`optimize_routes`. -/
def optimizeRoutesCallKeywords : List String :=
  ["zone_id", "customers", "osrm_table", "constraints", "start_from_depot"]

/-- Python raises `TypeError` when a call supplies a keyword argument the
callee does not accept. -/
def callHasUnexpectedKeyword (accepted given : List String) : Bool :=
  given.any (fun k => !(accepted.contains k))

/-- `schemas.routing.RouteAssignment` -/
structure RouteAssignmentSpec where
  route_id : String
  day : String
  customer_ids : List String
deriving Repr, DecidableEq

/-- The fields of `schemas.routing.RoutingRequest` read by
`optimize_routes` (persistence-only fields omitted). -/
structure RoutingRequestModel where
  city : String
  zone_id : String
  customer_ids : Option (List String)
  route_assignments : Option (List RouteAssignmentSpec)
  start_from_depot : Option Bool
  run_label : Option String
  requested_by : Option String
  notes : Option String
  tags : Option (List String)
deriving Repr, DecidableEq

/-- `_filter_customers`: a falsy (`None` or empty) id list keeps every
customer, otherwise keep the customers whose id is in the stripped set. -/
def filterCustomers (customers : List Customer) (customer_ids : Option (List String)) :
    List Customer :=
  match customer_ids with
  | none => customers
  | some [] => customers
  | some ids => customers.filter (fun c => (ids.map String.trim).contains c.customer_id)

/-- The external collaborators of `optimize_routes`: the depot resolver,
the per-zone customer lookup (which may raise), and whether the OSRM
client can be constructed (`settings.osrm_base_url` configured).  The
matrix acquisition itself needs no entry here: every failure of the
`table()` call is caught and replaced by the haversine fallback matrix,
so control always reaches the solver call. -/
structure OrchestratorEnv where
  depot : Option Depot
  zoneCustomers : Except String (List Customer)
  osrmConfigured : Bool
deriving Repr

/-- The control skeleton of `optimize_routes` up to and including the
`solve_vrp(...)` call, faithful to the guard order of the source.  The
manual-assignment branch delegates to `_optimize_sequences_only` (whose
solver core is `solveSequenceOnly` above) and is out of scope here, as is
everything after the solver call; both are collapsed to `.ok ()`. -/
def optimizeRoutesEntry (env : OrchestratorEnv) (payload : RoutingRequestModel) :
    Except PyError Unit :=
  match env.depot with
  | none => .error (.valueError ("Depot not found for city " ++ payload.city))
  | some _ =>
    match env.zoneCustomers with
    | .error e => .error (.valueError e)
    | .ok customers =>
      match customers with
      | [] => .error (.valueError "No customers found for zone.")
      | _ =>
        match filterCustomers customers payload.customer_ids with
        | [] => .error (.valueError "Customer list after filtering is empty.")
        | _ =>
          match payload.route_assignments with
          | some (_ :: _) => .ok ()
          | _ =>
            if !env.osrmConfigured then
              .error (.valueError "OSRM service is not configured. Please check OSRM_BASE_URL setting.")
            else if callHasUnexpectedKeyword solveVrpKeywordOnlyParams
                optimizeRoutesCallKeywords then
              .error (.typeError "solve_vrp got an unexpected keyword argument start_from_depot")
            else .ok ()

/-- The response metadata assembled by `optimize_routes` after the solver
returns (source lines 176-195): the solver metadata is carried through and
enriched with zone, city, `start_from_depot` and the optional
user-supplied fields. -/
structure ResponseMetadata where
  solver : RoutingMetadata
  zone_id : String
  city : String
  start_from_depot : Bool
  run_label : Option String
  author : Option String
  notes : Option String
  tags : Option (List String)
deriving Repr, DecidableEq

/-- The tag merge of `optimize_routes`: strip, drop empties, dedupe,
preserving first-seen order. -/
def mergeTags (existing incoming : List String) : List String :=
  (existing ++ incoming).foldl
    (fun merged tag =>
      let normalized := tag.trim
      if normalized ≠ "" ∧ ¬ merged.contains normalized then merged ++ [normalized]
      else merged)
    []

/-- The metadata enrichment of `optimize_routes`.  The
`use_haversine_fallback` flag is in scope in the source at this point; it
is deliberately kept as a parameter here because the source writes no
metadata entry derived from it — only log lines mention the fallback. -/
def buildResponseMetadata (solverMeta : RoutingMetadata)
    (payload : RoutingRequestModel) (start_from_depot : Bool)
    (use_haversine_fallback : Bool) : ResponseMetadata :=
  { solver := solverMeta,
    zone_id := payload.zone_id,
    city := payload.city,
    start_from_depot := start_from_depot,
    run_label := match payload.run_label with
      | some s => if s ≠ "" then some s else none
      | none => none,
    author := match payload.requested_by with
      | some s => if s ≠ "" then some s else none
      | none => none,
    notes := match payload.notes with
      | some s => if s ≠ "" then some s else none
      | none => none,
    tags :=
      match payload.tags with
      | some (t :: ts) => some (mergeTags [] (t :: ts))
      | _ => none }

/-! ## Concrete instances used by counterexamples and witnesses -/

/-- A routing request in automatic (full-VRP) mode with no optional field
set. -/
def payloadAuto : RoutingRequestModel :=
  { city := "Jeddah", zone_id := "Z1", customer_ids := none,
    route_assignments := none, start_from_depot := none, run_label := none,
    requested_by := none, notes := none, tags := none }

/-- A depot at the origin with code `JEDDAH`. -/
def depotJED : Depot := { code := "JEDDAH", latitude := 0, longitude := 0 }

/-- A single concrete customer. -/
def custC1 : Customer := { customer_id := "C1", latitude := 1, longitude := 1 }

/-- A second concrete customer. -/
def custC2 : Customer := { customer_id := "C2", latitude := 2, longitude := 2 }

/-- A third concrete customer. -/
def custC3 : Customer := { customer_id := "C3", latitude := 3, longitude := 3 }

/-- The relaxed duration bound named by the specification:
`max(1.5 x original, 2.5 x worst depot leg, 900 minutes)`. -/
def specRelaxedDuration (orig : ℤ) (worstLegMin : ℚ) : ℚ :=
  max (max ((orig : ℚ) * (3 / 2)) (worstLegMin * (5 / 2))) 900

/-- The relaxed distance bound named by the specification:
`max(1.5 x original, 2.5 x worst depot leg, 100 km)`. -/
def specRelaxedDistance (orig worstLegKm : ℚ) : ℚ :=
  max (max (orig * (3 / 2)) (worstLegKm * (5 / 2))) 100

/-- A 2x2 all-reachable OSRM table (depot and one customer). -/
def osrmTable2 : OsrmTable :=
  { durations := some [[some 0, some 10], [some 10, some 0]],
    distances := some [[some 0, some 10], [some 10, some 0]] }

/-- The OSRM table of the repository test `test_solve_vrp_simple`. -/
def osrmTableTest : OsrmTable :=
  { durations := some [[some 0, some 600, some 900],
                       [some 600, some 0, some 300],
                       [some 900, some 300, some 0]],
    distances := some [[some 0, some 1000, some 1500],
                       [some 1000, some 0, some 500],
                       [some 1500, some 500, some 0]] }

/-- A fixed one-vehicle solution visiting customer nodes 1 then 2, with
the time cumul values induced by `osrmTableTest`. -/
def vrpAssignment12 : VrpAssignment :=
  { routes := [[1, 2]],
    nodeTimeCumulSec := fun n => if n = 1 then 600 else if n = 2 then 900 else 0,
    endTimeCumulSec := fun _ => 1800,
    endDistCumulM := fun _ => 3000 }

/-- A solver stub that always returns `vrpAssignment12`. -/
def solveFixed12 : VrpModel → Option VrpAssignment := fun _ => some vrpAssignment12

/-- A 4x4 OSRM table (depot plus three customers), fully reachable. -/
def osrmTable4 : OsrmTable :=
  { durations := some [[some 0, some 60, some 60, some 60],
                       [some 60, some 0, some 60, some 60],
                       [some 60, some 60, some 0, some 60],
                       [some 60, some 60, some 60, some 0]],
    distances := some [[some 0, some 1000, some 1000, some 1000],
                       [some 1000, some 0, some 1000, some 1000],
                       [some 1000, some 1000, some 0, some 1000],
                       [some 1000, some 1000, some 1000, some 0]] }

/-- Constraints with `max_customers_per_route = 2`. -/
def capWitnessConstraints : SolverConstraints :=
  { max_customers_per_route := 2, min_customers_per_route := 0,
    max_route_duration_minutes := 600, max_distance_per_route_km := 50 }

/-- A fixed two-vehicle solution: nodes `[1, 2]` and `[3]`, zero cumuls. -/
def vrpAssignmentSplit : VrpAssignment :=
  { routes := [[1, 2], [3]],
    nodeTimeCumulSec := fun _ => 0,
    endTimeCumulSec := fun _ => 0,
    endDistCumulM := fun _ => 0 }

/-- A solver stub that returns `vrpAssignmentSplit` whenever the model
capacity admits it (so that it respects every capacity bound). -/
def solveCapGate : VrpModel → Option VrpAssignment :=
  fun m => if 2 ≤ m.capacity then some vrpAssignmentSplit else none

/-- Soundness of the abstract OR-Tools search with respect to the
capacity dimension: every returned vehicle route carries at most
`capacity` units of demand (demand is 1 per non-depot node). -/
def CapacityRespecting (solve : VrpModel → Option VrpAssignment) : Prop :=
  ∀ m a, solve m = some a →
    ∀ route ∈ a.routes, (route.filter (fun v => v != 0)).length ≤ m.capacity

/-- The `RoutingResult` produced by `solveVrp` on `solveCapGate`,
`osrmTable4`, three customers and capacity 2. -/
def capacityWitnessResult : RoutingResult :=
  { zone_id := "Z",
    plans := [
      { route_id := "Z_R01", day := "SUN", total_distance_km := 0,
        total_duration_min := 0, customer_count := 2,
        stops := [
          { customer_id := "C1", sequence := 1, arrival_min := 0, distance_from_prev_km := 1 },
          { customer_id := "C2", sequence := 2, arrival_min := 0, distance_from_prev_km := 1 }],
        constraint_violations := [] },
      { route_id := "Z_R02", day := "SUN", total_distance_km := 0,
        total_duration_min := 0, customer_count := 1,
        stops := [
          { customer_id := "C3", sequence := 1, arrival_min := 0, distance_from_prev_km := 1 }],
        constraint_violations := [] }],
    metadata := vrpSuccessMetadata capWitnessConstraints 2 none }

/-- A TSP stub that visits the customer nodes in reverse order. -/
def tspRev : List (List ℤ) → List (List ℤ) → Option TspAssignment :=
  fun rdm _ => some { order := (List.range' 1 (rdm.length - 1)).reverse,
                      timeCumulSec := fun _ => 0 }

/-- Two manual routes over the three concrete customers. -/
def rasW : List (String × String × List Customer) :=
  [("R1", "MON", [custC1, custC2]), ("R2", "TUE", [custC3])]

/-- The customer-to-matrix-index map of the concrete instance. -/
def ctiW : List (String × ℕ) := [("C1", 1), ("C2", 2), ("C3", 3)]

/-- A single-request outcome that the chunked path never consults. -/
def singleUnused : Except PyError ChunkResult := .error (.valueError "unused")

/-- A chunk oracle whose every request fails. -/
def oracleAllFail : ℕ → ℕ → Option ChunkResult := fun _ _ => none

/-- A 2x2 successful chunk response. -/
def chunkOk : ChunkResult :=
  { durations := [[some 1, some 1], [some 1, some 1]],
    distances := [[some 1, some 1], [some 1, some 1]] }

/-- A chunk oracle failing only for the pair `(1, 1)`. -/
def oracleOneFail : ℕ → ℕ → Option ChunkResult :=
  fun a b => if a = 1 ∧ b = 1 then none else some chunkOk

/-! ## Theorems -/

set_option maxRecDepth 16000

/-- Claim C1, counterexample: with 3 customers assigned to zone A and no
customer assigned to zone B, zone B does not occur in the assignment map
at all, so `_build_zone_map` produces the single zone A, which is within
its own tolerance band (3 <= 3 * 1.2); the loop stops immediately and the
transfer list is empty — no customer is moved, contradicting the claim
that at least one customer moves from A to B.  (The distance function is
irrelevant: the loop breaks before it is consulted.) -/
theorem C1_counterexample_no_transfer_from_A :
    balanceAssignments (fun _ _ _ _ => 0)
      [("C1", "A"), ("C2", "A"), ("C3", "A")]
      [{ customer_id := "C1", latitude := 0, longitude := 0 },
       { customer_id := "C2", latitude := 0, longitude := 1 },
       { customer_id := "C3", latitude := 1, longitude := 0 }]
      (1 / 5) none =
    .ok { assignments := [("C1", "A"), ("C2", "A"), ("C3", "A")],
          transfers := [],
          counts_before := [("A", 3)],
          counts_after := [("A", 3)],
          tolerance := 1 / 5 } := by
  with_unfolding_all rfl

/-- Claim C1 (amended): for an assignment map placing 3 customers in zone
A and 0 customers in zone B (so zone B is absent from the zone map built
from the assignments), `balance_assignments` with tolerance 0.2 performs
no transfer whatsoever — for every distance function and every customer
coordinates — and leaves the per-zone counts unchanged, so the count
difference after balancing equals (hence does not exceed) the difference
before. -/
theorem C1_balance_three_vs_empty_zone_is_noop
    (hav : ℚ → ℚ → ℚ → ℚ → ℚ) :
    balanceAssignments hav
      [("C1", "A"), ("C2", "A"), ("C3", "A")]
      [{ customer_id := "C1", latitude := 0, longitude := 0 },
       { customer_id := "C2", latitude := 0, longitude := 1 },
       { customer_id := "C3", latitude := 1, longitude := 0 }]
      (1 / 5) none =
    .ok { assignments := [("C1", "A"), ("C2", "A"), ("C3", "A")],
          transfers := [],
          counts_before := [("A", 3)],
          counts_after := [("A", 3)],
          tolerance := 1 / 5 } := by
  with_unfolding_all rfl

/-- Claim C3, counterexample: with a bearing of 45 degrees, 4 sectors and
no rotation, the sector index of the specification formula is 0, but the
generated zone id is `JED001` (sector index plus one), not the `JED000`
the claim prescribes. -/
theorem C3_counterexample_zone_id_offset :
    polarGenerate (fun _ _ _ _ => 45) depotJED [custC1] 4 0 =
      .ok { assignments := [("C1", "JED001")], strategy := "polar" } ∧
    claimedPolarZoneId (fun _ _ _ _ => 45) depotJED custC1 4 0 = "JED000" ∧
    ("JED001" : String) ≠ "JED000" := by
  refine ⟨by with_unfolding_all rfl, by with_unfolding_all rfl, by decide⟩

/-- Claim C3 (amended): for every customer, polar-sector zoning assigns
the customer to sector `floor(((bearing(depot, customer) -
rotation_offset) mod 360) / (360 / target_zones))`, and the resulting
zone id is the depot code prefix (first 3 characters, uppercased)
followed by the 3-digit value of the sector index PLUS ONE (sector ids
are 1-based in the generated zone id). -/
theorem C3_polar_zone_id_is_sector_index_plus_one
    (bdeg : ℚ → ℚ → ℚ → ℚ → ℚ) (depot : Depot) (customers : List Customer)
    (target_zones : ℤ) (rotation_offset : ℚ) (h : 1 ≤ target_zones) :
    polarGenerate bdeg depot customers target_zones rotation_offset =
      .ok { assignments := customers.map (fun c =>
              (c.customer_id,
               depotCode3 depot.code ++
                 pyFormatInt 3
                   (specSectorIndex bdeg depot c target_zones rotation_offset + 1))),
            strategy := "polar" } := by
  unfold polarGenerate specSectorIndex
  rw [if_neg (by omega)]

/-- Witness for `C3_polar_zone_id_is_sector_index_plus_one` at a concrete
input. -/
theorem C3_polar_zone_id_witness :
    (1 : ℤ) ≤ 4 ∧
    polarGenerate (fun _ _ _ _ => 45) depotJED [custC1] 4 0 =
      .ok { assignments := [("C1",
              depotCode3 depotJED.code ++
                pyFormatInt 3
                  (specSectorIndex (fun _ _ _ _ => 45) depotJED custC1 4 0 + 1))],
            strategy := "polar" } :=
  ⟨by decide,
   C3_polar_zone_id_is_sector_index_plus_one (fun _ _ _ _ => 45) depotJED [custC1] 4 0 (by decide)⟩

/-- Helper: `find?` returns the first element of a decomposed list whose
threshold is not exceeded. -/
theorem find_first_not_exceeded (d : ℚ) (pre post : List ℤ) (t : ℤ)
    (hpre : ∀ t2 ∈ pre, (t2 : ℚ) < d) (hle : d ≤ (t : ℚ)) :
    (pre ++ t :: post).find? (fun (x : ℤ) => decide (d ≤ (x : ℚ))) = some t := by
  induction pre with
  | nil =>
    rw [List.nil_append]
    exact List.find?_cons_of_pos _ (by simpa using hle)
  | cons a as ih =>
    have ha : (a : ℚ) < d := hpre a (by simp)
    rw [List.cons_append, List.find?_cons_of_neg]
    · exact ih (fun t2 ht => hpre t2 (by simp [ht]))
    · simpa using not_le.mpr ha

/-- Helper: zipping a list with its own map and projecting is a plain map. -/
theorem zip_map_assignments (l : List Customer) (f : Customer → ℚ)
    (ths : List ℤ) (tz : Option ℤ) :
    ((l.zip (l.map f)).map (fun p => (p.1.customer_id, matchThreshold p.2 ths tz))) =
      l.map (fun c => (c.customer_id, matchThreshold (f c) ths tz)) := by
  induction l with
  | nil => rfl
  | cons c cs ih =>
    simpa using ih

/-- Claim C9: with the oracle unconfigured (haversine fallback at 40 km/h)
isochrone zoning assigns each customer the label of the first sorted
threshold its travel duration does not exceed (`ISO` plus the 3-digit
threshold); a customer beyond all thresholds (with no extra-bucket
`target_zones`) gets the out-of-range bucket; and concretely, a customer
exactly 20 km from the depot (duration 30 min) with thresholds `[15, 30]`
is assigned `ISO030`, not `ISO015`. -/
theorem C9_isochrone_first_threshold_assignment :
    (∀ (d : ℚ) (pre post : List ℤ) (t : ℤ) (tz : Option ℤ),
        (∀ t2 ∈ pre, (t2 : ℚ) < d) → d ≤ (t : ℚ) →
        matchThreshold d (pre ++ t :: post) tz = "ISO" ++ pyFormatInt 3 t) ∧
    (∀ (d : ℚ) (thresholds : List ℤ),
        (∀ t ∈ thresholds, (t : ℚ) < d) →
        matchThreshold d thresholds none = "ISO_OUT_OF_RANGE") ∧
    (∀ (hav : ℚ → ℚ → ℚ → ℚ → ℚ) (depot : Depot) (customers : List Customer)
        (tz : Option ℤ) (th0 : Option (List ℤ)),
        (isochroneGenerateOffline hav depot customers tz th0).assignments =
          customers.map (fun c =>
            (c.customer_id,
             matchThreshold (fallbackHaversineMinutes hav depot c)
               (sortedIsoThresholds th0) tz))) ∧
    (isochroneGenerateOffline (fun _ _ _ _ => 20) depotJED [custC1] none
        (some [15, 30])).assignments = [("C1", "ISO030")] ∧
    ("ISO030" : String) ≠ "ISO015" := by
  refine ⟨?_, ?_, ?_, ?_, by decide⟩
  · intro d pre post t tz hpre hle
    unfold matchThreshold
    rw [find_first_not_exceeded d pre post t hpre hle]
  · intro d thresholds h
    unfold matchThreshold
    rw [List.find?_eq_none.mpr (fun x hx => by simpa using not_le.mpr (h x hx))]
  · intro hav depot customers tz th0
    simpa [isochroneGenerateOffline] using
      zip_map_assignments customers (fallbackHaversineMinutes hav depot)
        (sortedIsoThresholds th0) tz
  · with_unfolding_all rfl

/-- Witness for `C9_isochrone_first_threshold_assignment`: its
hypothesis-bearing conjuncts applied at concrete inputs. -/
theorem C9_isochrone_witness :
    matchThreshold 30 ([15] ++ 30 :: []) none = "ISO" ++ pyFormatInt 3 30 ∧
    matchThreshold 40 [15, 30] none = "ISO_OUT_OF_RANGE" :=
  ⟨C9_isochrone_first_threshold_assignment.1 30 [15] [] 30 none (by decide) (by decide),
   C9_isochrone_first_threshold_assignment.2.1 40 [15, 30] (by decide)⟩

/-- Claim C2, counterexample: a request that passes depot resolution,
customer lookup and filtering but runs in an environment without a
configured OSRM base URL raises `ValueError` (from the failed
`OSRMClient()` construction), not `TypeError`, so the claim as stated
(`TypeError` for every such request) fails. -/
theorem C2_counterexample_unconfigured_osrm :
    optimizeRoutesEntry
      { depot := some depotJED, zoneCustomers := .ok [custC1], osrmConfigured := false }
      payloadAuto =
    .error (.valueError "OSRM service is not configured. Please check OSRM_BASE_URL setting.") := by
  with_unfolding_all rfl

/-- Claim C2 (amended): for every routing request in automatic full-VRP
mode (no truthy manual route assignments) that passes depot resolution,
customer lookup, filtering AND the OSRM client construction,
`optimize_routes` raises a `TypeError` before producing any
`RoutingResponse`, because the `solve_vrp` call passes the keyword
argument `start_from_depot` which is not among the keyword-only
parameters of `solve_vrp`. -/
theorem C2_auto_mode_raises_type_error
    (env : OrchestratorEnv) (payload : RoutingRequestModel) (d : Depot)
    (cs : List Customer)
    (hd : env.depot = some d) (hc : env.zoneCustomers = .ok cs) (hne : cs ≠ [])
    (hf : filterCustomers cs payload.customer_ids ≠ [])
    (hm : payload.route_assignments = none ∨ payload.route_assignments = some [])
    (ho : env.osrmConfigured = true) :
    optimizeRoutesEntry env payload =
      .error (.typeError "solve_vrp got an unexpected keyword argument start_from_depot") := by
  unfold optimizeRoutesEntry
  rw [hd, hc]
  cases cs with
  | nil => exact absurd rfl hne
  | cons c cs2 =>
    dsimp only
    rcases hfc : filterCustomers (c :: cs2) payload.customer_ids with _ | ⟨f, fs⟩
    · exact absurd hfc hf
    · dsimp only
      rcases hm with hm | hm <;> rw [hm] <;> dsimp only <;> rw [ho] <;> rfl

/-- Witness for `C2_auto_mode_raises_type_error` at a concrete
environment and request. -/
theorem C2_auto_mode_witness :
    optimizeRoutesEntry
      { depot := some depotJED, zoneCustomers := .ok [custC1], osrmConfigured := true }
      payloadAuto =
      .error (.typeError "solve_vrp got an unexpected keyword argument start_from_depot") :=
  C2_auto_mode_raises_type_error
    { depot := some depotJED, zoneCustomers := .ok [custC1], osrmConfigured := true }
    payloadAuto depotJED [custC1] rfl rfl (by decide) (by decide) (Or.inl rfl) rfl

/-- Claim C7 (code divergence): the metadata enrichment performed by
`optimize_routes` after the solver returns is the same function of the
solver metadata and the request whether or not the haversine fallback
replaced the discarded oracle matrix — the `use_haversine_fallback` flag
in scope is never written into the metadata, so the degradation is
invisible in the returned metadata (it is only logged). -/
theorem C7_response_metadata_ignores_haversine_fallback
    (solverMeta : RoutingMetadata) (payload : RoutingRequestModel)
    (start_from_depot : Bool) :
    buildResponseMetadata solverMeta payload start_from_depot true =
      buildResponseMetadata solverMeta payload start_from_depot false := by
  rfl

/-- Claim C4: when the strict solver attempt finds no solution,
`solve_vrp` retries exactly once on a model that differs only in the
duration/distance bounds, set from `max(1.5 x original, 2.5 x worst
depot-to-customer leg, absolute floors of 900 minutes and 100 km)`; if
the retry also fails, it returns (rather than raising) a `RoutingResult`
with no plans, status `infeasible` and a diagnostic reason. -/
theorem C4_solve_vrp_relaxation_and_infeasible
    (solve : VrpModel → Option VrpAssignment) (zone_id : String)
    (customers : List Customer) (t : OsrmTable) (wd : List String)
    (c0 : Option SolverConstraints) (tm dm : List (List ℤ))
    (hv : vrpValidate t = .ok (tm, dm))
    (hs : solve (strictVrpModel (c0.getD defaultConstraints) tm dm) = none)
    (hr : solve (relaxedVrpModel (c0.getD defaultConstraints) tm dm) = none) :
    (relaxedBounds (c0.getD defaultConstraints) tm dm).1 =
      specRelaxedDuration (c0.getD defaultConstraints).max_route_duration_minutes
        (maxDepotLeg (tm.getD 0 []) 60) ∧
    (relaxedBounds (c0.getD defaultConstraints) tm dm).2 =
      specRelaxedDistance (c0.getD defaultConstraints).max_distance_per_route_km
        (maxDepotLeg (dm.getD 0 []) 1000) ∧
    (relaxedVrpModel (c0.getD defaultConstraints) tm dm).duration_bound_seconds =
      pyint ((relaxedBounds (c0.getD defaultConstraints) tm dm).1 * 60) ∧
    (relaxedVrpModel (c0.getD defaultConstraints) tm dm).distance_bound_meters =
      pyint ((relaxedBounds (c0.getD defaultConstraints) tm dm).2 * 1000) ∧
    (relaxedVrpModel (c0.getD defaultConstraints) tm dm).capacity =
      (strictVrpModel (c0.getD defaultConstraints) tm dm).capacity ∧
    (relaxedVrpModel (c0.getD defaultConstraints) tm dm).distance_matrix =
      (strictVrpModel (c0.getD defaultConstraints) tm dm).distance_matrix ∧
    solveVrp solve zone_id customers t wd c0 =
      .ok (vrpInfeasibleResult zone_id customers (c0.getD defaultConstraints) tm dm) ∧
    (vrpInfeasibleResult zone_id customers (c0.getD defaultConstraints) tm dm).plans = [] ∧
    (vrpInfeasibleResult zone_id customers (c0.getD defaultConstraints) tm dm).metadata.status =
      "infeasible" ∧
    (vrpInfeasibleResult zone_id customers (c0.getD defaultConstraints) tm dm).metadata.reason.isSome =
      true := by
  refine ⟨rfl, rfl, rfl, rfl, rfl, rfl, ?_, rfl, rfl, rfl⟩
  unfold solveVrp
  rw [hv]
  dsimp only
  rw [hs]
  dsimp only
  rw [hr]

/-- Witness for `C4_solve_vrp_relaxation_and_infeasible`: a never-solving
search on a valid 2x2 table yields the structured infeasible result. -/
theorem C4_infeasible_witness :
    vrpValidate osrmTable2 = .ok ([[0, 10], [10, 0]], [[0, 10], [10, 0]]) ∧
    solveVrp (fun _ => none) "Z" [custC1] osrmTable2 [] none =
      .ok (vrpInfeasibleResult "Z" [custC1] defaultConstraints
        [[0, 10], [10, 0]] [[0, 10], [10, 0]]) :=
  ⟨by with_unfolding_all rfl,
   (C4_solve_vrp_relaxation_and_infeasible (fun _ => none) "Z" [custC1] osrmTable2 []
      none [[0, 10], [10, 0]] [[0, 10], [10, 0]]
      (by with_unfolding_all rfl) rfl rfl).2.2.2.2.2.2.1⟩

/-- Claim C8 (code divergence, concrete evaluation): on the repository
test matrix with visit order C1 then C2, the produced first stop records
`distance_from_prev_km = 0.5` — the matrix leg from C1 to the NEXT node
C2 (`distances[1][2] / 1000`) — whereas the leg from the previous stop
(the depot) to C1 is `distances[0][1] / 1000 = 1.0`.  The extraction loop
saves `previous_index` before advancing and then indexes the matrix with
`[node_index][next_node]`, so every stop carries its outgoing leg, not
the incoming leg the `distance_from_prev_km` field documents. -/
theorem C8_distance_from_prev_is_next_leg :
    solveVrp solveFixed12 "ZONE1" [custC1, custC2] osrmTableTest ["SUN"] none =
      .ok { zone_id := "ZONE1",
            plans := [
              { route_id := "ZONE1_R01", day := "SUN",
                total_distance_km := 3, total_duration_min := 30,
                customer_count := 2,
                stops := [
                  { customer_id := "C1", sequence := 1, arrival_min := 10,
                    distance_from_prev_km := 1 / 2 },
                  { customer_id := "C2", sequence := 2, arrival_min := 15,
                    distance_from_prev_km := 3 / 2 }],
                constraint_violations := [("min_customers", 8)] }],
            metadata := vrpSuccessMetadata defaultConstraints 1 none } ∧
    (matGet [[0, 1000, 1500], [1000, 0, 500], [1500, 500, 0]] 0 1 : ℚ) / 1000 = 1 ∧
    ((1 : ℚ) / 2) ≠ 1 := by
  refine ⟨by with_unfolding_all rfl, by norm_num [matGet, cellD], by norm_num⟩

/-- Helper: the extraction loop emits at most one stop per non-depot node
of the walked route. -/
theorem extractStops_length_le (dmx : List (List ℤ)) (cust : List Customer)
    (tc : ℕ → ℤ) (route : List ℕ) :
    ∀ seq, (extractStops dmx cust tc route seq).length ≤
      (route.filter (fun v => v != 0)).length := by
  induction route with
  | nil => intro seq; exact Nat.zero_le _
  | cons node rest ih =>
    intro seq
    by_cases h : node ≠ 0 ∧ node - 1 < cust.length
    · have hne : (node != 0) = true := by
        simpa using h.1
      simp only [extractStops, if_pos h, List.filter_cons, hne, if_true,
        List.length_cons]
      exact Nat.succ_le_succ (ih (seq + 1))
    · simp only [extractStops, if_neg h]
      cases hb : (node != 0)
      · simp only [List.filter_cons, hb, Bool.false_eq_true, if_false]
        exact ih seq
      · simp only [List.filter_cons, hb, if_true, List.length_cons]
        exact Nat.le_succ_of_le (ih seq)

/-- Helper: a plan built for one vehicle respects the capacity bound
satisfied by the assignment routes. -/
theorem buildVehiclePlan_count_le (zid : String) (wd : List String)
    (cons1 : SolverConstraints) (dmx : List (List ℤ)) (cust : List Customer)
    (a : VrpAssignment) (cap v ps : ℕ) (p : RoutePlan)
    (hcap : ∀ route ∈ a.routes, (route.filter (fun x => x != 0)).length ≤ cap)
    (hp : buildVehiclePlan zid wd cons1 dmx cust a v ps = some p) :
    p.customer_count ≤ cap := by
  unfold buildVehiclePlan at hp
  dsimp only at hp
  rcases hstops : extractStops dmx cust a.nodeTimeCumulSec (a.routes.getD v []) 1 with
    _ | ⟨s, srest⟩
  · rw [hstops] at hp
    exact absurd hp (by simp)
  · rw [hstops] at hp
    simp only [Option.some.injEq] at hp
    have hcount : p.customer_count = (s :: srest).length := by
      rw [← hp]
    rw [hcount, ← hstops]
    by_cases hv : v < a.routes.length
    · have hmem : a.routes.getD v [] ∈ a.routes := by
        rw [List.getD_eq_getElem?_getD, List.getElem?_eq_getElem hv]
        exact List.getElem_mem hv
      exact le_trans (extractStops_length_le dmx cust a.nodeTimeCumulSec _ 1)
        (hcap _ hmem)
    · have hdef : a.routes.getD v [] = [] := by
        rw [List.getD_eq_getElem?_getD, List.getElem?_eq_none (by omega)]
        rfl
      rw [hdef]
      simp [extractStops]

/-- Helper: every plan accumulated by the vehicle fold respects the
capacity bound. -/
theorem buildPlans_counts_le (zid : String) (wd : List String)
    (cons1 : SolverConstraints) (dmx : List (List ℤ)) (cust : List Customer)
    (a : VrpAssignment) (cap veh : ℕ)
    (hcap : ∀ route ∈ a.routes, (route.filter (fun x => x != 0)).length ≤ cap) :
    ∀ p ∈ buildPlans zid wd cons1 dmx cust a veh, p.customer_count ≤ cap := by
  unfold buildPlans
  have main : ∀ (l : List ℕ) (acc : List RoutePlan),
      (∀ p ∈ acc, p.customer_count ≤ cap) →
      ∀ p ∈ l.foldl
        (fun plans v =>
          match buildVehiclePlan zid wd cons1 dmx cust a v plans.length with
          | none => plans
          | some q => plans ++ [q]) acc, p.customer_count ≤ cap := by
    intro l
    induction l with
    | nil => intro acc hacc p hp; exact hacc p hp
    | cons v vs ih =>
      intro acc hacc p hp
      simp only [List.foldl_cons] at hp
      rcases hbv : buildVehiclePlan zid wd cons1 dmx cust a v acc.length with _ | q
      · rw [hbv] at hp
        exact ih acc hacc p hp
      · rw [hbv] at hp
        refine ih (acc ++ [q]) ?_ p hp
        intro p2 hp2
        rcases List.mem_append.mp hp2 with h2 | h2
        · exact hacc p2 h2
        · have : p2 = q := by simpa using h2
          rw [this]
          exact buildVehiclePlan_count_le zid wd cons1 dmx cust a cap v acc.length q hcap hbv
  exact main (List.range veh) [] (by simp)

/-- Claim C10: for every capacity-respecting search, every `RoutePlan`
returned by `solve_vrp` has `customer_count` at most
`max_customers_per_route` — also on the relaxed retry, since relaxation
changes only the duration and distance bounds and keeps the capacity
dimension (and the infeasible outcome has no plans at all). -/
theorem C10_solve_vrp_capacity
    (solve : VrpModel → Option VrpAssignment) (zone_id : String)
    (customers : List Customer) (t : OsrmTable) (wd : List String)
    (c0 : Option SolverConstraints) (r : RoutingResult)
    (hcap : CapacityRespecting solve)
    (hok : solveVrp solve zone_id customers t wd c0 = .ok r) :
    ∀ plan ∈ r.plans,
      plan.customer_count ≤ (c0.getD defaultConstraints).max_customers_per_route := by
  unfold solveVrp at hok
  rcases hv : vrpValidate t with e | ⟨tm, dm⟩
  · rw [hv] at hok
    exact absurd hok (by simp)
  · rw [hv] at hok
    dsimp only at hok
    rcases hs : solve (strictVrpModel (c0.getD defaultConstraints) tm dm) with _ | a
    · rw [hs] at hok
      dsimp only at hok
      rcases hr : solve (relaxedVrpModel (c0.getD defaultConstraints) tm dm) with _ | a
      · rw [hr] at hok
        simp only [Except.ok.injEq] at hok
        rw [← hok]
        intro plan hplan
        exact absurd hplan (by simp [vrpInfeasibleResult])
      · rw [hr] at hok
        simp only [Except.ok.injEq] at hok
        rw [← hok]
        intro plan hplan
        exact buildPlans_counts_le zone_id
          (if wd = [] then defaultWorkingDays else wd) (c0.getD defaultConstraints)
          dm customers a (c0.getD defaultConstraints).max_customers_per_route _
          (hcap _ a hr) plan hplan
    · rw [hs] at hok
      simp only [Except.ok.injEq] at hok
      rw [← hok]
      intro plan hplan
      exact buildPlans_counts_le zone_id
        (if wd = [] then defaultWorkingDays else wd) (c0.getD defaultConstraints)
        dm customers a (c0.getD defaultConstraints).max_customers_per_route _
        (hcap _ a hs) plan hplan

/-- Witness for `C10_solve_vrp_capacity`: capacity 2, three customers in
one zone, a capacity-respecting search splitting them 2/1; no plan
exceeds 2 customers. -/
theorem C10_capacity_witness :
    CapacityRespecting solveCapGate ∧
    solveVrp solveCapGate "Z" [custC1, custC2, custC3] osrmTable4 ["SUN"]
      (some capWitnessConstraints) = .ok capacityWitnessResult ∧
    ∀ plan ∈ capacityWitnessResult.plans, plan.customer_count ≤ 2 := by
  have hcap : CapacityRespecting solveCapGate := by
    intro m a h route hr
    by_cases hc : 2 ≤ m.capacity
    · simp only [solveCapGate, if_pos hc, Option.some.injEq] at h
      rw [← h] at hr
      simp only [vrpAssignmentSplit, List.mem_cons, List.mem_singleton,
        List.not_mem_nil, or_false] at hr
      rcases hr with rfl | rfl
      · have h2 : (List.filter (fun v => v != 0) [1, 2]).length = 2 := rfl
        omega
      · have h2 : (List.filter (fun v => v != 0) [3]).length = 1 := rfl
        omega
    · simp [solveCapGate, if_neg hc] at h
  have hok : solveVrp solveCapGate "Z" [custC1, custC2, custC3] osrmTable4 ["SUN"]
      (some capWitnessConstraints) = .ok capacityWitnessResult := by
    with_unfolding_all rfl
  exact ⟨hcap, hok,
    C10_solve_vrp_capacity solveCapGate "Z" [custC1, custC2, custC3] osrmTable4
      ["SUN"] (some capWitnessConstraints) capacityWitnessResult hcap hok⟩

/-- Helper: reading a mapped list at an in-range index. -/
theorem getD_map_lt {α β : Type} (l : List α) (f : α → β) (i : ℕ)
    (h : i < l.length) (d : β) (d2 : α) :
    (l.map f).getD i d = f (l.getD i d2) := by
  rw [List.getD_eq_getElem?_getD, List.getD_eq_getElem?_getD, List.getElem?_map,
    List.getElem?_eq_getElem h]
  rfl

/-- Helper: when every route customer is present in the index map,
`route_index_map` is the depot entry followed by one entry per customer
in order. -/
theorem routeIndexMap_all_present (cti : List (String × ℕ)) (cs : List Customer)
    (h : ∀ c ∈ cs, (lookupIndex cti c.customer_id).isSome) :
    routeIndexMap cti cs =
      ((none : Option Customer), 0) ::
        cs.map (fun c =>
          ((some c : Option Customer), (lookupIndex cti c.customer_id).getD 0)) := by
  unfold routeIndexMap
  congr 1
  induction cs with
  | nil => rfl
  | cons c rest ih =>
    have hc := h c (by simp)
    rcases ho : lookupIndex cti c.customer_id with _ | idx
    · rw [ho] at hc
      exact absurd hc (by simp)
    · simp only [List.filterMap_cons, ho, Option.map_some', List.map_cons,
        Option.getD_some]
      exact congrArg _ (ih (fun c2 h2 => h c2 (by simp [h2])))

/-- Helper: the ids of the stops produced by the solved-branch walk are
the visited nodes mapped through the route customer list. -/
theorem seqWalk_ids (rdm rtm : List (List ℤ)) (cs : List Customer)
    (g : Customer → ℕ) (tc : ℕ → ℤ) (order : List ℕ)
    (hmem : ∀ node ∈ order, 1 ≤ node ∧ node ≤ cs.length) :
    ∀ seq td tu last,
      ((seqWalk rdm rtm
          (((none : Option Customer), 0) ::
            cs.map (fun c => ((some c : Option Customer), g c))) tc
          order seq td tu last).1.map (fun s => s.customer_id)) =
        order.map (fun node => (cs.getD (node - 1) noCustomer).customer_id) := by
  induction order with
  | nil => intro seq td tu last; rfl
  | cons node rest ih =>
    intro seq td tu last
    obtain ⟨h1, h2⟩ := hmem node (by simp)
    obtain ⟨m, rfl⟩ : ∃ m, node = m + 1 := ⟨node - 1, by omega⟩
    have hne : (m + 1) ≠ 0 := by omega
    have hm : m < cs.length := by omega
    simp only [seqWalk, if_pos hne, List.getD_cons_succ]
    rw [getD_map_lt cs _ m hm _ noCustomer]
    dsimp only
    simp only [List.map_cons, Nat.add_sub_cancel]
    exact congrArg _ (ih (fun n hn => hmem n (by simp [hn])) (seq + 1) _ _ _)

/-- Helper: the fallback branch keeps the caller-supplied customer order,
so its stop ids are exactly the route customer ids. -/
theorem seqFallback_ids (dmx tmx : List (List ℤ)) (cti : List (String × ℕ))
    (cs : List Customer) (h : ∀ c ∈ cs, (lookupIndex cti c.customer_id).isSome) :
    ∀ seq td tu prev,
      ((seqFallback dmx tmx cti cs seq td tu prev).1.map (fun s => s.customer_id)) =
        cs.map (fun c => c.customer_id) := by
  induction cs with
  | nil => intro _ _ _ _; rfl
  | cons c rest ih =>
    intro seq td tu prev
    have hc := h c (by simp)
    rcases ho : lookupIndex cti c.customer_id with _ | idx
    · rw [ho] at hc
      exact absurd hc (by simp)
    · simp only [seqFallback, ho, List.map_cons]
      exact congrArg _ (ih (fun c2 h2 => h c2 (by simp [h2])) (seq + 1) _ _ _)

/-- Helper: mapping `getD` over the index range of a list is mapping the
list itself. -/
theorem map_range_getD {α β : Type} (l : List α) (f : α → β) (d : α) :
    (List.range l.length).map (fun i => f (l.getD i d)) = l.map f := by
  induction l with
  | nil => rfl
  | cons a as ih =>
    rw [List.length_cons, List.range_succ_eq_map]
    simp only [List.map_cons, List.getD_cons_zero, List.map_map]
    have heq : ((fun i => f ((a :: as).getD i d)) ∘ Nat.succ) =
        fun i => f (as.getD i d) := by
      funext i
      simp [List.getD_cons_succ]
    rw [heq, ih]

/-- Helper: visiting the nodes `1 .. n` in ascending order reads off the
customer list itself. -/
theorem range'_one_map_getD (cs : List Customer) :
    (List.range' 1 cs.length).map
        (fun node => (cs.getD (node - 1) noCustomer).customer_id) =
      cs.map (fun c => c.customer_id) := by
  rw [List.range'_eq_map_range, List.map_map]
  have heq : ((fun node => (cs.getD (node - 1) noCustomer).customer_id) ∘
      (fun i => 1 + i)) = fun i => (cs.getD i noCustomer).customer_id := by
    funext i
    simp
  rw [heq]
  exact map_range_getD cs (fun c => c.customer_id) noCustomer

/-- Helper: one pre-assigned route with a non-empty, fully-indexed
customer list always yields a plan carrying exactly those customers (in
the caller order on solver failure, in the solver order otherwise). -/
theorem solveRouteSequence_membership
    (tsp : List (List ℤ) → List (List ℤ) → Option TspAssignment)
    (dur dist : List (List ℤ)) (cti : List (String × ℕ))
    (rid day : String) (cs : List Customer)
    (htsp : TspPermRespecting tsp) (hne : cs ≠ [])
    (hall : ∀ c ∈ cs, (lookupIndex cti c.customer_id).isSome) :
    ∃ p, solveRouteSequence tsp dur dist cti rid day cs = some p ∧
      p.route_id = rid ∧ p.day = day ∧
      (p.stops.map (fun s => s.customer_id)).Perm
        (cs.map (fun c => c.customer_id)) := by
  cases cs with
  | nil => exact absurd rfl hne
  | cons c0 rest =>
    unfold solveRouteSequence
    rw [routeIndexMap_all_present cti (c0 :: rest) hall]
    rw [if_neg (by simp)]
    dsimp only
    cases htA : tsp
        (subMatrix dist (((none : Option Customer), 0) ::
          (c0 :: rest).map (fun c =>
            ((some c : Option Customer), (lookupIndex cti c.customer_id).getD 0))))
        (subMatrix dur (((none : Option Customer), 0) ::
          (c0 :: rest).map (fun c =>
            ((some c : Option Customer), (lookupIndex cti c.customer_id).getD 0)))) with
    | none =>
      refine ⟨_, rfl, rfl, rfl, ?_⟩
      rw [seqFallback_ids dist dur cti (c0 :: rest) hall 1 0 0 0]
    | some a =>
      refine ⟨_, rfl, rfl, rfl, ?_⟩
      have hperm := htsp _ _ _ htA
      have hlen : (subMatrix dist (((none : Option Customer), 0) ::
          (c0 :: rest).map (fun c =>
            ((some c : Option Customer), (lookupIndex cti c.customer_id).getD 0)))).length =
          rest.length + 2 := by
        simp [subMatrix]
      rw [hlen] at hperm
      have hmem : ∀ node ∈ a.order, 1 ≤ node ∧ node ≤ (c0 :: rest).length := by
        intro node hn
        have hr := hperm.mem_iff.mp hn
        rw [List.mem_range'_1] at hr
        simp only [List.length_cons]
        omega
      rw [seqWalk_ids _ _ (c0 :: rest)
        (fun c => (lookupIndex cti c.customer_id).getD 0) a.timeCumulSec a.order hmem 1 0 0 0]
      refine (hperm.map _).trans ?_
      have h21 : rest.length + 2 - 1 = rest.length + 1 := by omega
      rw [h21]
      have hfin := range'_one_map_getD (c0 :: rest)
      simp only [List.length_cons, List.map_cons] at hfin
      rw [hfin]
      exact List.Perm.refl _

/-- Helper: when every route entry yields a plan, the accumulating fold
is an append of the mapped plans. -/
theorem seq_foldl_eq_map (tsp : List (List ℤ) → List (List ℤ) → Option TspAssignment)
    (dur dist : List (List ℤ)) (cti : List (String × ℕ))
    (ras : List (String × String × List Customer))
    (h : ∀ e ∈ ras, (solveRouteSequence tsp dur dist cti e.1 e.2.1 e.2.2).isSome) :
    ∀ acc, ras.foldl
        (fun acc e =>
          match solveRouteSequence tsp dur dist cti e.1 e.2.1 e.2.2 with
          | none => acc
          | some p => acc ++ [p]) acc =
      acc ++ ras.map (seqPlanOf tsp dur dist cti) := by
  induction ras with
  | nil => intro acc; simp
  | cons e rest ih =>
    intro acc
    rcases he : solveRouteSequence tsp dur dist cti e.1 e.2.1 e.2.2 with _ | p
    · have hs := h e (by simp)
      rw [he] at hs
      exact absurd hs (by simp)
    · simp only [List.foldl_cons, he]
      rw [ih (fun e2 h2 => h e2 (by simp [h2])) (acc ++ [p])]
      simp [seqPlanOf, he]

/-- Claim C5: for every input mapping of route ids to `(day, customers)`
whose customers all appear in the customer-to-index map (and are
non-empty), `solve_sequence_only` returns one `RoutePlan` per route, in
order, whose multiset of stop customer ids equals exactly the customer
list of that route id — no customer is moved between routes, dropped, or
added, regardless of the visit order the per-route search chooses. -/
theorem C5_sequence_only_preserves_membership
    (tsp : List (List ℤ) → List (List ℤ) → Option TspAssignment)
    (zone_id : String) (ras : List (String × String × List Customer))
    (cti : List (String × ℕ)) (t : OsrmTable) (tm dm : List (List ℤ))
    (hprep : prepareMatrices t = .ok (tm, dm))
    (hne1 : tm ≠ []) (hne2 : dm ≠ []) (hlen : tm.length = dm.length)
    (htsp : TspPermRespecting tsp)
    (hall : ∀ e ∈ ras, e.2.2 ≠ [] ∧
      ∀ c ∈ e.2.2, (lookupIndex cti c.customer_id).isSome) :
    ∃ plans : List RoutePlan,
      solveSequenceOnly tsp zone_id ras cti t =
        .ok { zone_id := zone_id, plans := plans,
              metadata := seqOnlyMetadata plans.length } ∧
      plans.length = ras.length ∧
      ∀ i, i < ras.length →
        (plans.getD i dummyPlan).route_id = (ras.getD i ("", "", [])).1 ∧
        ((plans.getD i dummyPlan).stops.map (fun s => s.customer_id)).Perm
          ((ras.getD i ("", "", [])).2.2.map (fun c => c.customer_id)) := by
  have hsome : ∀ e ∈ ras,
      (solveRouteSequence tsp tm dm cti e.1 e.2.1 e.2.2).isSome := by
    intro e he
    obtain ⟨p, hp, _, _, _⟩ := solveRouteSequence_membership tsp tm dm cti
      e.1 e.2.1 e.2.2 htsp (hall e he).1 (hall e he).2
    rw [hp]
    rfl
  refine ⟨ras.map (seqPlanOf tsp tm dm cti), ?_, by simp, ?_⟩
  · unfold solveSequenceOnly
    rw [hprep]
    dsimp only
    rw [if_neg (by simp [hne1, hne2])]
    rw [if_neg (by simp [hlen])]
    rw [seq_foldl_eq_map tsp tm dm cti ras hsome []]
    simp only [List.nil_append]
  · intro i hi
    have hget : (ras.map (seqPlanOf tsp tm dm cti)).getD i dummyPlan =
        seqPlanOf tsp tm dm cti (ras.getD i ("", "", [])) :=
      getD_map_lt ras _ i hi dummyPlan ("", "", [])
    have hmem : ras.getD i ("", "", []) ∈ ras := by
      rw [List.getD_eq_getElem?_getD, List.getElem?_eq_getElem hi]
      exact List.getElem_mem hi
    obtain ⟨p, hp, hrid, hday, hperm⟩ := solveRouteSequence_membership tsp tm dm cti
      (ras.getD i ("", "", [])).1 (ras.getD i ("", "", [])).2.1
      (ras.getD i ("", "", [])).2.2 htsp (hall _ hmem).1 (hall _ hmem).2
    constructor
    · rw [hget]
      unfold seqPlanOf
      rw [hp]
      exact hrid
    · rw [hget]
      unfold seqPlanOf
      rw [hp]
      exact hperm

/-- Witness for `C5_sequence_only_preserves_membership`: two manual routes
with a reverse-order TSP stub; every per-route plan keeps exactly its own
customers. -/
theorem C5_sequence_only_witness :
    TspPermRespecting tspRev ∧
    (∃ plans : List RoutePlan,
      solveSequenceOnly tspRev "Z" rasW ctiW osrmTable4 =
        .ok { zone_id := "Z", plans := plans,
              metadata := seqOnlyMetadata plans.length } ∧
      plans.length = rasW.length ∧
      ∀ i, i < rasW.length →
        (plans.getD i dummyPlan).route_id = (rasW.getD i ("", "", [])).1 ∧
        ((plans.getD i dummyPlan).stops.map (fun s => s.customer_id)).Perm
          ((rasW.getD i ("", "", [])).2.2.map (fun c => c.customer_id))) := by
  have htsp : TspPermRespecting tspRev := by
    intro rdm rtm a h
    simp only [tspRev, Option.some.injEq] at h
    rw [← h]
    exact List.reverse_perm _
  exact ⟨htsp, C5_sequence_only_preserves_membership tspRev "Z" rasW ctiW osrmTable4
    [[0, 60, 60, 60], [60, 0, 60, 60], [60, 60, 0, 60], [60, 60, 60, 0]]
    [[0, 1000, 1000, 1000], [1000, 0, 1000, 1000], [1000, 1000, 0, 1000],
      [1000, 1000, 1000, 0]]
    (by with_unfolding_all rfl) (by decide) (by decide) (by decide) htsp (by decide)⟩

/-- Helper: `List.set` read through `getD`. -/
theorem listGetD_set {α : Type} (l : List α) (i j : ℕ) (v : α) (d : α) :
    (l.set i v).getD j d = if i = j ∧ i < l.length then v else l.getD j d := by
  induction l generalizing i j with
  | nil => simp
  | cons a as ih =>
    cases i with
    | zero =>
      cases j with
      | zero => simp
      | succ j2 => simp
    | succ i2 =>
      cases j with
      | zero => simp
      | succ j2 =>
        simp only [List.set_cons_succ, List.getD_cons_succ, ih i2 j2,
          List.length_cons]
        by_cases hc : i2 = j2 ∧ i2 < as.length
        · rw [if_pos hc, if_pos (by omega)]
        · rw [if_neg hc, if_neg (by omega)]

/-- Helper: writing one cell leaves every other cell unchanged. -/
theorem cellD_setCell_ne {α : Type} (m : List (List α)) (i2 j2 i j : ℕ)
    (v d : α) (h : i2 ≠ i ∨ j2 ≠ j) :
    cellD (setCell m i2 j2 v) i j d = cellD m i j d := by
  unfold cellD setCell
  rw [listGetD_set]
  by_cases hi : i2 = i ∧ i2 < m.length
  · rw [if_pos hi]
    have hj : j2 ≠ j := by
      rcases h with h | h
      · exact absurd hi.1 h
      · exact h
    rw [listGetD_set, if_neg (fun hc => hj hc.1), hi.1]
  · rw [if_neg hi]

/-- Helper: a fold preserves an invariant preserved by every step. -/
theorem foldl_preserve {α β : Type} (P : β → Prop) (f : β → α → β)
    (l : List α) (hstep : ∀ b a, a ∈ l → P b → P (f b a)) :
    ∀ b, P b → P (l.foldl f b) := by
  induction l with
  | nil => intro b hb; exact hb
  | cons a as ih =>
    intro b hb
    exact ih (fun b2 a2 h2 hb2 => hstep b2 a2 (by simp [h2]) hb2) (f b a)
      (hstep b a (by simp) hb)

/-- Helper: stitching one chunk writes only inside its rectangle. -/
theorem stitchChunkPair_outside
    (mats : List (List (Option ℚ)) × List (List (Option ℚ)))
    (s0 s1 d0 d1 : ℕ) (res : ChunkResult) (i j : ℕ)
    (h : i < s0 ∨ s1 ≤ i ∨ j < d0 ∨ d1 ≤ j) :
    cellD (stitchChunkPair mats s0 s1 d0 d1 res).1 i j none = cellD mats.1 i j none ∧
    cellD (stitchChunkPair mats s0 s1 d0 d1 res).2 i j none = cellD mats.2 i j none := by
  unfold stitchChunkPair
  refine foldl_preserve
    (fun md => cellD md.1 i j none = cellD mats.1 i j none ∧
      cellD md.2 i j none = cellD mats.2 i j none) _ _ ?_ mats ⟨rfl, rfl⟩
  intro md ls hls hmd
  have hls2 : ls < s1 - s0 := List.mem_range.mp hls
  refine foldl_preserve
    (fun md2 => cellD md2.1 i j none = cellD mats.1 i j none ∧
      cellD md2.2 i j none = cellD mats.2 i j none) _ _ ?_ md hmd
  intro md2 ld hld hmd2
  have hld2 : ld < d1 - d0 := List.mem_range.mp hld
  by_cases hg : ls < res.durations.length ∧ ld < (res.durations.getD ls []).length
  · rw [if_pos hg]
    have hne : (s0 + ls ≠ i) ∨ (d0 + ld ≠ j) := by
      rcases h with h | h | h | h
      · left; omega
      · left; omega
      · right; omega
      · right; omega
    exact ⟨by rw [cellD_setCell_ne _ _ _ _ _ _ _ hne]; exact hmd2.1,
           by rw [cellD_setCell_ne _ _ _ _ _ _ _ hne]; exact hmd2.2⟩
  · rw [if_neg hg]
    exact hmd2

/-- Helper: the length of the chunk range list. -/
theorem chunkRanges_length (n cs : ℕ) :
    (chunkRanges n cs).length = numChunks n cs := by
  simp [chunkRanges, numChunks]

/-- Helper: the `a`-th chunk range. -/
theorem chunkRanges_getD (n cs a : ℕ) (h : a < numChunks n cs) :
    (chunkRanges n cs).getD a (0, 0) = (a * cs, min ((a + 1) * cs) n) := by
  unfold chunkRanges
  rw [getD_map_lt (List.range (numChunks n cs)) _ a (by simpa using h) (0, 0) 0]
  have hr : (List.range (numChunks n cs)).getD a 0 = a := by
    rw [List.getD_eq_getElem?_getD, List.getElem?_range h]
    rfl
  rw [hr]

/-- Helper: membership in the chunk pair list. -/
theorem mem_chunkPairs (k : ℕ) (p : ℕ × ℕ) (h : p ∈ chunkPairs k) :
    p.1 < k ∧ p.2 < k := by
  unfold chunkPairs at h
  rw [List.mem_flatMap] at h
  obtain ⟨a, ha, hb⟩ := h
  rw [List.mem_map] at hb
  obtain ⟨b, hb2, rfl⟩ := hb
  exact ⟨List.mem_range.mp ha, List.mem_range.mp hb2⟩

/-- Helper: the failure counter of the stitching fold counts exactly the
failed chunk pairs. -/
theorem stitchedMats_failed (oracle : ℕ → ℕ → Option ChunkResult) (n cs : ℕ) :
    (stitchedMats oracle n cs).2 =
      chunkFailureCount oracle (chunkRanges n cs).length := by
  unfold stitchedMats chunkFailureCount
  have main : ∀ (pl : List (ℕ × ℕ))
      (acc : (List (List (Option ℚ)) × List (List (Option ℚ))) × ℕ),
      (pl.foldl
        (fun acc p =>
          match oracle p.1 p.2 with
          | none => (acc.1, acc.2 + 1)
          | some res =>
            let ra := (chunkRanges n cs).getD p.1 (0, 0)
            let rb := (chunkRanges n cs).getD p.2 (0, 0)
            (stitchChunkPair acc.1 ra.1 ra.2 rb.1 rb.2 res, acc.2)) acc).2 =
      acc.2 + pl.countP (fun p => (oracle p.1 p.2).isNone) := by
    intro pl
    induction pl with
    | nil => intro acc; simp
    | cons p rest ih =>
      intro acc
      rcases horc : oracle p.1 p.2 with _ | res
      · simp only [List.foldl_cons, horc, List.countP_cons]
        rw [ih]
        simp [horc]
        omega
      · simp only [List.foldl_cons, horc, List.countP_cons]
        rw [ih]
        simp [horc]
  rw [main]
  simp

/-- Helper: the pre-sized matrices are all-`None`. -/
theorem cellD_replicate (n i j : ℕ) :
    cellD (List.replicate n (List.replicate n (none : Option ℚ))) i j none = none := by
  unfold cellD
  simp only [List.getD_eq_getElem?_getD, List.getElem?_replicate]
  by_cases hi : i < n
  · simp only [if_pos hi, Option.getD_some]
    by_cases hj : j < n
    · simp [if_pos hj]
    · simp [if_neg hj]
  · simp [if_neg hi]

/-- Helper: a cell owned by a failed chunk pair stays `None` through the
whole stitching fold. -/
theorem stitchedMats_none_of_failed (oracle : ℕ → ℕ → Option ChunkResult)
    (n cs : ℕ) (a b i j : ℕ) (hcs : 0 < cs)
    (ha : a < numChunks n cs) (hb : b < numChunks n cs)
    (hfail : oracle a b = none)
    (hi1 : a * cs ≤ i) (hi2 : i < min ((a + 1) * cs) n)
    (hj1 : b * cs ≤ j) (hj2 : j < min ((b + 1) * cs) n) :
    cellD (stitchedMats oracle n cs).1.1 i j none = none ∧
    cellD (stitchedMats oracle n cs).1.2 i j none = none := by
  unfold stitchedMats
  have base : cellD (List.replicate n (List.replicate n (none : Option ℚ))) i j none = none :=
    cellD_replicate n i j
  refine foldl_preserve
    (fun acc => cellD acc.1.1 i j none = none ∧ cellD acc.1.2 i j none = none)
    _ _ ?_
    ((List.replicate n (List.replicate n (none : Option ℚ)),
      List.replicate n (List.replicate n (none : Option ℚ))), 0)
    ⟨base, base⟩
  intro acc p hp hacc
  obtain ⟨hp1, hp2⟩ := mem_chunkPairs _ p (by rwa [chunkRanges_length] at hp)
  rcases horc : oracle p.1 p.2 with _ | res
  · exact hacc
  · have hpa : p ≠ (a, b) := by
      intro hc
      rw [hc] at horc
      rw [horc] at hfail
      exact absurd hfail (by simp)
    dsimp only
    rw [chunkRanges_getD n cs p.1 hp1, chunkRanges_getD n cs p.2 hp2]
    have hout : i < p.1 * cs ∨ min ((p.1 + 1) * cs) n ≤ i ∨
        j < p.2 * cs ∨ min ((p.2 + 1) * cs) n ≤ j := by
      by_cases hpe : p.1 = a
      · have hq : p.2 ≠ b := by
          intro hc
          exact hpa (by rw [← hpe, ← hc])
        rcases Nat.lt_or_ge p.2 b with hlt | hge
        · right; right; right
          have hmul : (p.2 + 1) * cs ≤ b * cs := Nat.mul_le_mul_right cs (by omega)
          omega
        · have hbp : b < p.2 := by omega
          right; right; left
          have hmul : (b + 1) * cs ≤ p.2 * cs := Nat.mul_le_mul_right cs (by omega)
          omega
      · rcases Nat.lt_or_ge p.1 a with hlt | hge
        · right; left
          have hmul : (p.1 + 1) * cs ≤ a * cs := Nat.mul_le_mul_right cs (by omega)
          omega
        · have hap : a < p.1 := by omega
          left
          have hmul : (a + 1) * cs ≤ p.1 * cs := Nat.mul_le_mul_right cs (by omega)
          omega
    have hstitch := stitchChunkPair_outside acc.1 (p.1 * cs) (min ((p.1 + 1) * cs) n)
      (p.2 * cs) (min ((p.2 + 1) * cs) n) res i j hout
    exact ⟨hstitch.1.trans hacc.1, hstitch.2.trans hacc.2⟩

/-- Helper: a sentinel cell away from `(0, 0)` is prepared to the
penalty. -/
theorem prepareMatrix_penalty (m : List (List (Option ℚ))) (i j : ℕ)
    (hne : ¬ (i = 0 ∧ j = 0)) (hi : i < m.length) (hj : j < (m.getD i []).length)
    (hcell : getCell m i j = none) :
    matGet (prepareMatrix m) i j = LARGE_PENALTY := by
  unfold prepareMatrix
  cases m with
  | nil => simp at hi
  | cons r rest =>
    dsimp only [List.map_cons]
    unfold matGet
    rw [cellD_setCell_ne _ 0 0 i j _ _ (by omega)]
    unfold cellD
    have hmap : ((prepareRow r :: rest.map prepareRow)).getD i [] =
        prepareRow ((r :: rest).getD i []) := by
      have := getD_map_lt (r :: rest) prepareRow i hi [] []
      simpa using this
    rw [hmap]
    unfold prepareRow
    rw [getD_map_lt ((r :: rest).getD i []) _ j hj 0 none]
    have hc : ((r :: rest).getD i []).getD j none = none := hcell
    rw [hc]

/-- Claim C6 (amended): for a chunked `table()` request, more than half
failed chunk requests raises a `ConnectionError`; at half or below, the
stitched matrices are returned with every cell of a failed chunk left as
the explicit `None` sentinel (never zero); and `_prepare_matrices`
replaces each `None` sentinel with the finite penalty `999999999` —
except the depot-to-depot cell `[0][0]`, which is unconditionally reset
to `0` afterwards. -/
theorem C6_table_chunk_failure_handling
    (single : Except PyError ChunkResult) (oracle : ℕ → ℕ → Option ChunkResult)
    (n cs : ℕ) (hcs : 0 < cs) (hn : 2 ≤ n) (hchunk : cs < n) :
    ((1 : ℚ) / 2 <
        (chunkFailureCount oracle (numChunks n cs) : ℚ) /
          ((numChunks n cs * numChunks n cs : ℕ) : ℚ) →
      osrmClientTable single oracle n cs =
        .error (.connectionError
          "Critical failure: more than half of the chunk requests failed.")) ∧
    (¬ ((1 : ℚ) / 2 <
        (chunkFailureCount oracle (numChunks n cs) : ℚ) /
          ((numChunks n cs * numChunks n cs : ℕ) : ℚ)) →
      osrmClientTable single oracle n cs = .ok (stitchedMats oracle n cs).1 ∧
      ∀ a b i j, a < numChunks n cs → b < numChunks n cs → oracle a b = none →
        a * cs ≤ i → i < min ((a + 1) * cs) n → b * cs ≤ j → j < min ((b + 1) * cs) n →
        getCell (stitchedMats oracle n cs).1.1 i j = none ∧
        getCell (stitchedMats oracle n cs).1.2 i j = none) ∧
    (∀ (durs dists : List (List (Option ℚ))) (tm dm : List (List ℤ)),
      prepareMatrices { durations := some durs, distances := some dists } = .ok (tm, dm) →
      ∀ i j, ¬ (i = 0 ∧ j = 0) →
        (i < durs.length → j < (durs.getD i []).length → getCell durs i j = none →
          matGet tm i j = LARGE_PENALTY) ∧
        (i < dists.length → j < (dists.getD i []).length → getCell dists i j = none →
          matGet dm i j = LARGE_PENALTY)) := by
  have hk1 : 1 ≤ numChunks n cs := by
    unfold numChunks
    rw [Nat.one_le_div_iff hcs]
    omega
  have hwrap : osrmClientTable single oracle n cs = tableChunked oracle n cs := by
    unfold osrmClientTable
    rw [if_neg (by omega), if_neg (by omega)]
  have hkk : (chunkRanges n cs).length = numChunks n cs := chunkRanges_length n cs
  have hpos : 0 < numChunks n cs * numChunks n cs := Nat.mul_pos (by omega) (by omega)
  refine ⟨?_, ?_, ?_⟩
  · intro h
    rw [hwrap]
    unfold tableChunked
    dsimp only
    rw [stitchedMats_failed, hkk, if_pos hpos, if_pos h]
  · intro h
    constructor
    · rw [hwrap]
      unfold tableChunked
      dsimp only
      rw [stitchedMats_failed, hkk, if_pos hpos, if_neg h]
    · intro a b i j ha hb hfail hi1 hi2 hj1 hj2
      exact stitchedMats_none_of_failed oracle n cs a b i j hcs ha hb hfail
        hi1 hi2 hj1 hj2
  · intro durs dists tm dm hprep i j hne
    unfold prepareMatrices at hprep
    simp only [Except.ok.injEq, Prod.mk.injEq] at hprep
    obtain ⟨h1, h2⟩ := hprep
    exact ⟨fun hi hj hc => h1 ▸ prepareMatrix_penalty durs i j hne hi hj hc,
           fun hi hj hc => h2 ▸ prepareMatrix_penalty dists i j hne hi hj hc⟩

/-- Claim C6, counterexample for the claim as stated: a `None` sentinel
in the depot-to-depot cell `(0, 0)` is prepared to `0`, not to the large
penalty, because `_prepare_matrices` resets `[0][0]` to `0` after the
sentinel substitution. -/
theorem C6_counterexample_depot_cell_zero :
    prepareMatrices
      { durations := some [[none, some 5], [some 5, some 0]],
        distances := some [[none, some 7], [some 7, some 0]] } =
      .ok ([[0, 5], [5, 0]], [[0, 7], [7, 0]]) ∧
    getCell [[none, some 5], [some 5, some 0]] 0 0 = none ∧
    matGet [[0, 5], [5, 0]] 0 0 = 0 ∧
    (0 : ℤ) ≠ LARGE_PENALTY := by
  refine ⟨by with_unfolding_all rfl, rfl, rfl, by decide⟩

/-- Witness for `C6_table_chunk_failure_handling`: `n = 3`, chunk size 2
(two chunks, four chunk pairs).  An all-failing oracle trips the
connectivity error; an oracle failing only pair `(1, 1)` returns the
stitched matrices with the failed cell `(2, 2)` still `None`; and the
prepare step maps an off-diagonal sentinel to the penalty. -/
theorem C6_table_chunk_witness :
    (osrmClientTable singleUnused oracleAllFail 3 2 =
      .error (.connectionError
        "Critical failure: more than half of the chunk requests failed.")) ∧
    (osrmClientTable singleUnused oracleOneFail 3 2 =
      .ok (stitchedMats oracleOneFail 3 2).1 ∧
     getCell (stitchedMats oracleOneFail 3 2).1.1 2 2 = none ∧
     getCell (stitchedMats oracleOneFail 3 2).1.2 2 2 = none) ∧
    matGet (prepareMatrix [[some 0, none], [some 5, some 0]]) 0 1 = LARGE_PENALTY := by
  have hnc : numChunks 3 2 = 2 := rfl
  have hcountA : chunkFailureCount oracleAllFail (numChunks 3 2) = 4 := rfl
  have hcountB : chunkFailureCount oracleOneFail (numChunks 3 2) = 1 := rfl
  have hrateA : (1 : ℚ) / 2 <
      (chunkFailureCount oracleAllFail (numChunks 3 2) : ℚ) /
        ((numChunks 3 2 * numChunks 3 2 : ℕ) : ℚ) := by
    rw [hcountA, hnc]
    norm_num
  have hrateB : ¬ ((1 : ℚ) / 2 <
      (chunkFailureCount oracleOneFail (numChunks 3 2) : ℚ) /
        ((numChunks 3 2 * numChunks 3 2 : ℕ) : ℚ)) := by
    rw [hcountB, hnc]
    norm_num
  have hfailA := (C6_table_chunk_failure_handling singleUnused oracleAllFail 3 2
    (by decide) (by decide) (by decide)).1 hrateA
  have hokB := (C6_table_chunk_failure_handling singleUnused oracleOneFail 3 2
    (by decide) (by decide) (by decide)).2.1 hrateB
  have hcellB := (hokB.2 1 1 2 2 (by decide) (by decide) (by decide) (by decide)
    (by decide) (by decide) (by decide))
  have hprepC := ((C6_table_chunk_failure_handling singleUnused oracleAllFail 3 2
    (by decide) (by decide) (by decide)).2.2
    [[some 0, none], [some 5, some 0]] [[some 0, none], [some 5, some 0]]
    (prepareMatrix [[some 0, none], [some 5, some 0]])
    (prepareMatrix [[some 0, none], [some 5, some 0]]) rfl 0 1 (by decide)).1
    (by decide) (by decide) rfl
  exact ⟨hfailA, ⟨hokB.1, hcellB.1, hcellB.2⟩, hprepC⟩

end IZG
